import Mathlib

/-!
The kubequery DaemonSet table generators.

A shallow embedding of `internal/k8s/apps/daemon_set.go`: the three generators
`DaemonSetsGenerate`, `DaemonSetContainersGenerate` and `DaemonSetVolumesGenerate`,
each a pagination loop over the cluster API's list endpoint that flattens every
listed DaemonSet into rows.

* The cluster client is a state-transition function: a list request is answered
  in a client state and leaves a new client state.
* A Go `for { ... }` loop is a recursion on a fuel argument; running out of fuel
  is `none`.
* A Go result pair `([]map[string]string, error)` is the record `GenerateResult`:
  a nil slice and a nil error are both `none`, and `make` and `append` keep track of
  whether a slice is nil.
* The Kubernetes API types keep the fields the generators and the field
  extractors read; the helpers of package `k8s` (field extractors and `ToMap`)
  are the fields of the record `K8s`.
* Where a property depends on what the helpers return, they are modelled from
  the projection rules of the specification (`modelK8s`), and the model is compared
  with the rows that `daemon_set_test.go` expects.
-/

namespace Kubequery

/-! ## Go and Kubernetes API types -/

/-- A Go `error` value, identified by its message. -/
abbrev Error := String

/-- A Go `map[string]string`, as the list of its key/value pairs. -/
abbrev StringMap := List (String × String)

/-- A row handed to the host: `map[string]string` from column name to value. -/
abbrev Row := List (String × String)

/-- A `context.Context`, reduced to its cancellation: `cancelledFrom = some n` is a
context that is cancelled from logical instant `n` on, the instant being the
number of list requests already issued; `none` is a context that is never
cancelled. -/
structure Context where
  cancelledFrom : Option Nat
deriving DecidableEq, Repr

/-- The Go `context.TODO()`: an empty context, never cancelled. -/
def Context.TODO : Context := { cancelledFrom := none }

/-- The Go `ctx.Err()` at logical instant `now`: `context.Canceled` once the context
is cancelled, nil before. -/
def Context.Err (ctx : Context) (now : Nat) : Option Error :=
  match ctx.cancelledFrom with
  | some n => if n ≤ now then some "context canceled" else none
  | none => none

/-- The osquery `table.QueryContext` handed to every generator. -/
structure QueryContext where
  Constraints : List (String × List String)
deriving DecidableEq, Repr

/-- The `metav1.ListOptions` of a list request. -/
structure ListOptions where
  LabelSelector : String := ""
  FieldSelector : String := ""
  Watch : Bool := false
  AllowWatchBookmarks : Bool := false
  ResourceVersion : String := ""
  ResourceVersionMatch : String := ""
  TimeoutSeconds : Option Int := none
  Limit : Int := 0
  Continue : String := ""
deriving DecidableEq, Repr

/-- The constant `metav1.NamespaceAll`. -/
def NamespaceAll : String := ""

/-- The `metav1.ObjectMeta` of a resource. -/
structure ObjectMeta where
  Name : String
  Namespace : String
  UID : String
  CreationTimestamp : Int
  Labels : StringMap
  Annotations : StringMap
deriving DecidableEq, Repr

/-- The `corev1.ResourceRequirements` of a container. -/
structure ResourceRequirements where
  Limits : StringMap
  Requests : StringMap
deriving DecidableEq, Repr

/-- The `corev1.Container`. -/
structure Container where
  Name : String
  Image : String
  Command : List String
  Args : List String
  Resources : ResourceRequirements
  ImagePullPolicy : String
  Stdin : Bool
  StdinOnce : Bool
  TTY : Bool
deriving DecidableEq, Repr

/-- The `corev1.EphemeralContainer`: the container fields of its embedded
`EphemeralContainerCommon` and the target container name. -/
structure EphemeralContainer where
  Name : String
  Image : String
  Command : List String
  Args : List String
  Resources : ResourceRequirements
  ImagePullPolicy : String
  Stdin : Bool
  StdinOnce : Bool
  TTY : Bool
  TargetContainerName : String
deriving DecidableEq, Repr

/-- The `corev1.HostPathVolumeSource`; `Type_` is its Go field `Type`. -/
structure HostPathVolumeSource where
  Path : String
  Type_ : Option String
deriving DecidableEq, Repr

/-- The `corev1.EmptyDirVolumeSource`. -/
structure EmptyDirVolumeSource where
  Medium : String
deriving DecidableEq, Repr

/-- The `corev1.ISCSIVolumeSource`. -/
structure ISCSIVolumeSource where
  TargetPortal : String
  IQN : String
  Lun : Int
  DiscoveryCHAPAuth : Bool
  SessionCHAPAuth : Bool
deriving DecidableEq, Repr

/-- The `corev1.AWSElasticBlockStoreVolumeSource`. -/
structure AWSElasticBlockStoreVolumeSource where
  VolumeID : String
  Partition : Int
deriving DecidableEq, Repr

/-- The `corev1.GCEPersistentDiskVolumeSource`. -/
structure GCEPersistentDiskVolumeSource where
  PDName : String
  Partition : Int
deriving DecidableEq, Repr

/-- The `corev1.ScaleIOVolumeSource`. -/
structure ScaleIOVolumeSource where
  Gateway : String
  System : String
  SSLEnabled : Bool
deriving DecidableEq, Repr

/-- The `corev1.VolumeSource`: at most one member is set. -/
structure VolumeSource where
  HostPath : Option HostPathVolumeSource := none
  EmptyDir : Option EmptyDirVolumeSource := none
  GCEPersistentDisk : Option GCEPersistentDiskVolumeSource := none
  AWSElasticBlockStore : Option AWSElasticBlockStoreVolumeSource := none
  ISCSI : Option ISCSIVolumeSource := none
  ScaleIO : Option ScaleIOVolumeSource := none
deriving DecidableEq, Repr

/-- The `corev1.Volume`. -/
structure Volume where
  Name : String
  VolumeSource : VolumeSource
deriving DecidableEq, Repr

/-- The `corev1.PodSpec`. -/
structure PodSpec where
  Volumes : List Volume
  InitContainers : List Container
  Containers : List Container
  EphemeralContainers : List EphemeralContainer
  RestartPolicy : String
  TerminationGracePeriodSeconds : Option Int
  DNSPolicy : String
  NodeSelector : StringMap
  ServiceAccountName : String
  HostNetwork : Bool
  HostPID : Bool
  HostIPC : Bool
  SchedulerName : String
  PriorityClassName : String
deriving DecidableEq, Repr

/-- The `corev1.PodTemplateSpec`. -/
structure PodTemplateSpec where
  ObjectMeta : ObjectMeta
  Spec : PodSpec
deriving DecidableEq, Repr

/-- The `metav1.LabelSelector`. -/
structure LabelSelector where
  MatchLabels : StringMap
deriving DecidableEq, Repr

/-- The `appsv1.DaemonSetUpdateStrategy`; `Type_` is its Go field `Type`. -/
structure DaemonSetUpdateStrategy where
  Type_ : String
  MaxUnavailable : Option Int
deriving DecidableEq, Repr

/-- The `appsv1.DaemonSetSpec`. -/
structure DaemonSetSpec where
  Selector : Option LabelSelector
  Template : PodTemplateSpec
  UpdateStrategy : DaemonSetUpdateStrategy
  MinReadySeconds : Int
  RevisionHistoryLimit : Option Int
deriving DecidableEq, Repr

/-- The `appsv1.DaemonSetStatus`. -/
structure DaemonSetStatus where
  CurrentNumberScheduled : Int
  NumberMisscheduled : Int
  DesiredNumberScheduled : Int
  NumberReady : Int
  ObservedGeneration : Int
  UpdatedNumberScheduled : Int
  NumberAvailable : Int
  NumberUnavailable : Int
deriving DecidableEq, Repr

/-- The `appsv1.DaemonSet`. -/
structure DaemonSet where
  ObjectMeta : ObjectMeta
  Spec : DaemonSetSpec
  Status : DaemonSetStatus
deriving DecidableEq, Repr

/-- The Go `ds.Name`: the field promoted from the embedded `ObjectMeta`. -/
def DaemonSet.Name (ds : DaemonSet) : String := ds.ObjectMeta.Name

/-- The `appsv1.DaemonSetList`: one page of a list response. -/
structure DaemonSetList where
  Items : List DaemonSet
  Continue : String
deriving DecidableEq, Repr

/-- The typed client behind `k8s.GetClient().AppsV1().DaemonSets(namespace)`: `List`
answers one list request, made with a context and list options, in a client
state and leaves the next client state. -/
structure Client (σ : Type) where
  List : Context → String → ListOptions → σ → Except Error DaemonSetList × σ

/-! ## Package `k8s`: field bundles and helpers -/

/-- Modelled from the spec: the record type `k8s.CommonNamespacedFields`, declared
outside `daemon_set.go`. The object-meta bundle of the data model: cluster uid,
uid, name, namespace, creation timestamp, labels, annotations. -/
structure CommonNamespacedFields where
  ClusterUID : String
  UID : String
  Name : String
  Namespace : String
  CreationTimestamp : Int
  Labels : StringMap
  Annotations : StringMap
deriving DecidableEq, Repr

/-- Modelled from the spec: the record type `k8s.CommonPodFields`, declared outside
`daemon_set.go`. The pod-spec summary of the data model. -/
structure CommonPodFields where
  DNSPolicy : String
  HostIPC : Bool
  HostNetwork : Bool
  HostPID : Bool
  NodeSelector : StringMap
  PriorityClassName : String
  RestartPolicy : String
  SchedulerName : String
  ServiceAccountName : String
  TerminationGracePeriodSeconds : Option Int
deriving DecidableEq, Repr

/-- Modelled from the spec: the record type `k8s.CommonContainerFields`, declared
outside `daemon_set.go`. The container summary of the data model; the row's
name lives in the object-meta bundle, where `item.Name = c.Name` writes it. -/
structure CommonContainerFields where
  Image : String
  ImagePullPolicy : String
  Command : List String
  Args : List String
  Resources : ResourceRequirements
  Stdin : Bool
  StdinOnce : Bool
  TTY : Bool
deriving DecidableEq, Repr

/-- Modelled from the spec: the record type `k8s.CommonVolumeFields`, declared
outside `daemon_set.go`. The volume summary of the data model: the
`volume_type` discriminator and the flat union of the per-variant fields. -/
structure CommonVolumeFields where
  VolumeType : String
  VolumeSource : VolumeSource
deriving DecidableEq, Repr

/-- The row record `daemonSet` of the `daemon_sets` table. -/
structure daemonSet where
  CommonNamespacedFields : CommonNamespacedFields
  CommonPodFields : CommonPodFields
  DaemonSetStatus : DaemonSetStatus
  Selector : Option LabelSelector
  UpdateStrategy : DaemonSetUpdateStrategy
  MinReadySeconds : Int
  RevisionHistoryLimit : Option Int
deriving DecidableEq, Repr

/-- The row record `daemonSetContainer` of the `daemon_set_containers` table. -/
structure daemonSetContainer where
  CommonNamespacedFields : CommonNamespacedFields
  CommonContainerFields : CommonContainerFields
  DaemonSetName : String
  ContainerType : String
deriving DecidableEq, Repr

/-- The row record `daemonSetVolume` of the `daemon_set_volumes` table. -/
structure daemonSetVolume where
  CommonNamespacedFields : CommonNamespacedFields
  CommonVolumeFields : CommonVolumeFields
  DaemonSetName : String
deriving DecidableEq, Repr

/-- The helpers of package `k8s` that the generators call and that are declared
outside `daemon_set.go`: the five field extractors and the row projection
`k8s.ToMap`, once per record type it is applied to. -/
structure K8s where
  GetCommonNamespacedFields : ObjectMeta → CommonNamespacedFields
  GetCommonPodFields : PodSpec → CommonPodFields
  GetCommonContainerFields : Container → CommonContainerFields
  GetCommonEphemeralContainerFields : EphemeralContainer → CommonContainerFields
  GetCommonVolumeFields : Volume → CommonVolumeFields
  ToMapDaemonSet : daemonSet → Row
  ToMapContainer : daemonSetContainer → Row
  ToMapVolume : daemonSetVolume → Row

/-- A Go slice value `[]T`, reduced to its elements and to whether it is nil: `none` is
the nil slice, `some []` an empty slice that is not nil. -/
abbrev Slice (α : Type) := Option (List α)

/-- The Go `make([]T, 0)`: an empty slice that is not nil. -/
def makeEmpty {α : Type} : Slice α := some []

/-- The Go `append(s, x)`: the elements of `s` followed by `x`; the result is never nil,
also when `s` is. -/
def append {α : Type} (s : Slice α) (x : α) : Slice α := some (s.getD [] ++ [x])

/-- The value a generator returns to the host, the Go pair
`([]map[string]string, error)`; `err = none` is the nil error. -/
structure GenerateResult where
  rows : Slice Row
  err : Option Error
deriving DecidableEq, Repr

/-! ## `daemon_set.go` -/

set_option linter.unusedVariables false

/-- The record `DaemonSetsGenerate` builds from one listed item (lines 48-56). -/
def daemonSetItem (k : K8s) (ds : DaemonSet) : daemonSet :=
  { CommonNamespacedFields := k.GetCommonNamespacedFields ds.ObjectMeta
    CommonPodFields := k.GetCommonPodFields ds.Spec.Template.Spec
    DaemonSetStatus := ds.Status
    Selector := ds.Spec.Selector
    UpdateStrategy := ds.Spec.UpdateStrategy
    MinReadySeconds := ds.Spec.MinReadySeconds
    RevisionHistoryLimit := ds.Spec.RevisionHistoryLimit }

/-- The `for` loop of `DaemonSetsGenerate` (lines 41-66), from the loop state
`options`, `results` and the client state. -/
def DaemonSetsGenerate.loop {σ : Type} (k : K8s) (client : Client σ) :
    Nat → ListOptions → Slice Row → σ → Option (GenerateResult × σ)
  | 0, _, _, _ => none
  | fuel + 1, options, results, s =>
    match client.List Context.TODO NamespaceAll options s with
    | (Except.error err, s') => some ({ rows := none, err := some err }, s')
    | (Except.ok dss, s') =>
      let results := dss.Items.foldl
        (fun results ds => append results (k.ToMapDaemonSet (daemonSetItem k ds))) results
      if dss.Continue = "" then
        some ({ rows := results, err := none }, s')
      else
        DaemonSetsGenerate.loop k client fuel { options with Continue := dss.Continue } results s'

/-- The generator `DaemonSetsGenerate`: `options` starts as `metav1.ListOptions{}`, `results`
as `make([]map[string]string, 0)`. The result is `none` when `fuel` iterations do not
finish the loop; otherwise the returned pair and the client state left behind. -/
def DaemonSetsGenerate {σ : Type} (k : K8s) (client : Client σ) (fuel : Nat)
    (ctx : Context) (queryContext : QueryContext) (s : σ) : Option (GenerateResult × σ) :=
  DaemonSetsGenerate.loop k client fuel {} makeEmpty s

/-- The record built for an element of `InitContainers` (lines 94-100), the
assignment `item.Name = c.Name` included: `item.Name` is the field `Name` promoted from
the embedded `CommonNamespacedFields`. -/
def initContainerItem (k : K8s) (ds : DaemonSet) (c : Container) : daemonSetContainer :=
  let item : daemonSetContainer :=
    { CommonNamespacedFields := k.GetCommonNamespacedFields ds.ObjectMeta
      CommonContainerFields := k.GetCommonContainerFields c
      DaemonSetName := ds.Name
      ContainerType := "init" }
  { item with CommonNamespacedFields := { item.CommonNamespacedFields with Name := c.Name } }

/-- The record built for an element of `Containers` (lines 104-110). -/
def containerItem (k : K8s) (ds : DaemonSet) (c : Container) : daemonSetContainer :=
  let item : daemonSetContainer :=
    { CommonNamespacedFields := k.GetCommonNamespacedFields ds.ObjectMeta
      CommonContainerFields := k.GetCommonContainerFields c
      DaemonSetName := ds.Name
      ContainerType := "container" }
  { item with CommonNamespacedFields := { item.CommonNamespacedFields with Name := c.Name } }

/-- The record built for an element of `EphemeralContainers` (lines 114-120). -/
def ephemeralContainerItem (k : K8s) (ds : DaemonSet) (c : EphemeralContainer) :
    daemonSetContainer :=
  let item : daemonSetContainer :=
    { CommonNamespacedFields := k.GetCommonNamespacedFields ds.ObjectMeta
      CommonContainerFields := k.GetCommonEphemeralContainerFields c
      DaemonSetName := ds.Name
      ContainerType := "ephemeral" }
  { item with CommonNamespacedFields := { item.CommonNamespacedFields with Name := c.Name } }

/-- The body of `for _, ds := range dss.Items` in `DaemonSetContainersGenerate`
(lines 93-122): three loops in sequence, each appending to `results`. -/
def DaemonSetContainersGenerate.body (k : K8s) (results : Slice Row) (ds : DaemonSet) :
    Slice Row :=
  let results := ds.Spec.Template.Spec.InitContainers.foldl
    (fun results c => append results (k.ToMapContainer (initContainerItem k ds c))) results
  let results := ds.Spec.Template.Spec.Containers.foldl
    (fun results c => append results (k.ToMapContainer (containerItem k ds c))) results
  let results := ds.Spec.Template.Spec.EphemeralContainers.foldl
    (fun results c => append results (k.ToMapContainer (ephemeralContainerItem k ds c))) results
  results

/-- The `for` loop of `DaemonSetContainersGenerate` (lines 86-129). -/
def DaemonSetContainersGenerate.loop {σ : Type} (k : K8s) (client : Client σ) :
    Nat → ListOptions → Slice Row → σ → Option (GenerateResult × σ)
  | 0, _, _, _ => none
  | fuel + 1, options, results, s =>
    match client.List Context.TODO NamespaceAll options s with
    | (Except.error err, s') => some ({ rows := none, err := some err }, s')
    | (Except.ok dss, s') =>
      let results := dss.Items.foldl (DaemonSetContainersGenerate.body k) results
      if dss.Continue = "" then
        some ({ rows := results, err := none }, s')
      else
        DaemonSetContainersGenerate.loop k client fuel
          { options with Continue := dss.Continue } results s'

/-- The generator `DaemonSetContainersGenerate`. -/
def DaemonSetContainersGenerate {σ : Type} (k : K8s) (client : Client σ) (fuel : Nat)
    (ctx : Context) (queryContext : QueryContext) (s : σ) : Option (GenerateResult × σ) :=
  DaemonSetContainersGenerate.loop k client fuel {} makeEmpty s

/-- The record built for an element of `Volumes` (lines 158-163), the assignment
`item.Name = v.Name` included. -/
def volumeItem (k : K8s) (ds : DaemonSet) (v : Volume) : daemonSetVolume :=
  let item : daemonSetVolume :=
    { CommonNamespacedFields := k.GetCommonNamespacedFields ds.ObjectMeta
      CommonVolumeFields := k.GetCommonVolumeFields v
      DaemonSetName := ds.Name }
  { item with CommonNamespacedFields := { item.CommonNamespacedFields with Name := v.Name } }

/-- The body of `for _, ds := range dss.Items` in `DaemonSetVolumesGenerate`
(lines 157-165). -/
def DaemonSetVolumesGenerate.body (k : K8s) (results : Slice Row) (ds : DaemonSet) :
    Slice Row :=
  ds.Spec.Template.Spec.Volumes.foldl
    (fun results v => append results (k.ToMapVolume (volumeItem k ds v))) results

/-- The `for` loop of `DaemonSetVolumesGenerate` (lines 150-172). -/
def DaemonSetVolumesGenerate.loop {σ : Type} (k : K8s) (client : Client σ) :
    Nat → ListOptions → Slice Row → σ → Option (GenerateResult × σ)
  | 0, _, _, _ => none
  | fuel + 1, options, results, s =>
    match client.List Context.TODO NamespaceAll options s with
    | (Except.error err, s') => some ({ rows := none, err := some err }, s')
    | (Except.ok dss, s') =>
      let results := dss.Items.foldl (DaemonSetVolumesGenerate.body k) results
      if dss.Continue = "" then
        some ({ rows := results, err := none }, s')
      else
        DaemonSetVolumesGenerate.loop k client fuel
          { options with Continue := dss.Continue } results s'

/-- The generator `DaemonSetVolumesGenerate`. -/
def DaemonSetVolumesGenerate {σ : Type} (k : K8s) (client : Client σ) (fuel : Nat)
    (ctx : Context) (queryContext : QueryContext) (s : σ) : Option (GenerateResult × σ) :=
  DaemonSetVolumesGenerate.loop k client fuel {} makeEmpty s

/-! ## Specification vocabulary -/

/-- The pagination loop the three generators share, over the rows `rowsOf` that one
listed item contributes: the reference the three source loops are compared
with. -/
def paginate {σ : Type} (client : Client σ) (rowsOf : DaemonSet → List Row) :
    Nat → ListOptions → List Row → σ → Option (GenerateResult × σ)
  | 0, _, _, _ => none
  | fuel + 1, options, results, s =>
    match client.List Context.TODO NamespaceAll options s with
    | (Except.error err, s') => some ({ rows := none, err := some err }, s')
    | (Except.ok dss, s') =>
      if dss.Continue = "" then
        some ({ rows := some (results ++ dss.Items.flatMap rowsOf), err := none }, s')
      else
        paginate client rowsOf fuel { options with Continue := dss.Continue }
          (results ++ dss.Items.flatMap rowsOf) s'

/-- The rows one DaemonSet contributes to `daemon_set_containers`: its init
containers, then its containers, then its ephemeral containers. -/
def containerRows (k : K8s) (ds : DaemonSet) : List Row :=
  ds.Spec.Template.Spec.InitContainers.map (fun c => k.ToMapContainer (initContainerItem k ds c))
    ++ ds.Spec.Template.Spec.Containers.map (fun c => k.ToMapContainer (containerItem k ds c))
    ++ ds.Spec.Template.Spec.EphemeralContainers.map
        (fun c => k.ToMapContainer (ephemeralContainerItem k ds c))

/-- The rows one DaemonSet contributes to `daemon_set_volumes`: one per volume. -/
def volumeRows (k : K8s) (ds : DaemonSet) : List Row :=
  ds.Spec.Template.Spec.Volumes.map (fun v => k.ToMapVolume (volumeItem k ds v))

/-- The records one DaemonSet contributes to `daemon_set_containers`, in the order
they are built. -/
def containerItems (k : K8s) (ds : DaemonSet) : List daemonSetContainer :=
  ds.Spec.Template.Spec.InitContainers.map (initContainerItem k ds)
    ++ ds.Spec.Template.Spec.Containers.map (containerItem k ds)
    ++ ds.Spec.Template.Spec.EphemeralContainers.map (ephemeralContainerItem k ds)

/-- The records one DaemonSet contributes to `daemon_set_volumes`, in the order they
are built. -/
def volumeItems (k : K8s) (ds : DaemonSet) : List daemonSetVolume :=
  ds.Spec.Template.Spec.Volumes.map (volumeItem k ds)

/-- The client, asked in state `s` with `options` and from then on with the
continue-token of its previous answer, answers successfully with `pages`, in this
order: every page but the last carries a non-empty continue-token, the last an
empty one. -/
def Serves {σ : Type} (client : Client σ) : σ → ListOptions → List DaemonSetList → Prop
  | _, _, [] => False
  | s, options, page :: rest =>
    (client.List Context.TODO NamespaceAll options s).1 = Except.ok page ∧
    if page.Continue = "" then rest = []
    else Serves client (client.List Context.TODO NamespaceAll options s).2
      { options with Continue := page.Continue } rest

/-- The client answers successfully with `pages`, each carrying a non-empty
continue-token, and answers the request after them with the error `err`. -/
def ServesThenFails {σ : Type} (client : Client σ) :
    σ → ListOptions → List DaemonSetList → Error → Prop
  | s, options, [], err =>
    (client.List Context.TODO NamespaceAll options s).1 = Except.error err
  | s, options, page :: rest, err =>
    (client.List Context.TODO NamespaceAll options s).1 = Except.ok page ∧
    page.Continue ≠ "" ∧
    ServesThenFails client (client.List Context.TODO NamespaceAll options s).2
      { options with Continue := page.Continue } rest err

/-- All items of a paged listing, in list order. -/
def allItems (pages : List DaemonSetList) : List DaemonSet :=
  pages.flatMap (fun page => page.Items)

/-- One list request as the client receives it: the context it is made with, the
namespace of `DaemonSets(namespace)` and the list options. -/
structure Request where
  ctx : Context
  Namespace : String
  options : ListOptions
deriving DecidableEq, Repr

/-- The client `client` observed: its state is paired with the log of the list
requests received so far, oldest first; the answers are those of `client`. -/
def recording {σ : Type} (client : Client σ) : Client (σ × List Request) :=
  { List := fun ctx ns options st =>
      ((client.List ctx ns options st.1).1,
       ((client.List ctx ns options st.1).2,
        st.2 ++ [{ ctx := ctx, Namespace := ns, options := options }])) }

/-- The requests of a run in which `pages` are served from `options` on: one request per
page, the first with `options`, each later one with the continue-token of the page
before it. -/
def chainedRequests : ListOptions → List DaemonSetList → List Request
  | _, [] => []
  | options, page :: rest =>
    { ctx := Context.TODO, Namespace := NamespaceAll, options := options }
      :: chainedRequests { options with Continue := page.Continue } rest

/-- List options in which every field other than `Continue` has its zero value. -/
def ListOptions.onlyContinue (options : ListOptions) : Prop :=
  options.LabelSelector = "" ∧ options.FieldSelector = "" ∧ options.Watch = false ∧
  options.AllowWatchBookmarks = false ∧ options.ResourceVersion = "" ∧
  options.ResourceVersionMatch = "" ∧ options.TimeoutSeconds = none ∧ options.Limit = 0

/-! ## Concrete inputs -/

/-- Modelled from the spec: the meta extractor `k8s.GetCommonNamespacedFields`, declared
outside `daemon_set.go`. It produces the object-meta bundle from the resource's
metadata: the cluster uid of the process state, then uid, name, namespace,
creation timestamp, labels and annotations of the resource. -/
def GetCommonNamespacedFields (clusterUID : String) (meta : ObjectMeta) :
    CommonNamespacedFields :=
  { ClusterUID := clusterUID
    UID := meta.UID
    Name := meta.Name
    Namespace := meta.Namespace
    CreationTimestamp := meta.CreationTimestamp
    Labels := meta.Labels
    Annotations := meta.Annotations }

/-- Modelled from the spec: the pod extractor `k8s.GetCommonPodFields`, declared outside
`daemon_set.go`. It produces the pod-spec summary from a pod spec. -/
def GetCommonPodFields (p : PodSpec) : CommonPodFields :=
  { DNSPolicy := p.DNSPolicy
    HostIPC := p.HostIPC
    HostNetwork := p.HostNetwork
    HostPID := p.HostPID
    NodeSelector := p.NodeSelector
    PriorityClassName := p.PriorityClassName
    RestartPolicy := p.RestartPolicy
    SchedulerName := p.SchedulerName
    ServiceAccountName := p.ServiceAccountName
    TerminationGracePeriodSeconds := p.TerminationGracePeriodSeconds }

/-- Modelled from the spec: the container extractor `k8s.GetCommonContainerFields`,
declared outside `daemon_set.go`. It produces the container summary from a
container. -/
def GetCommonContainerFields (c : Container) : CommonContainerFields :=
  { Image := c.Image
    ImagePullPolicy := c.ImagePullPolicy
    Command := c.Command
    Args := c.Args
    Resources := c.Resources
    Stdin := c.Stdin
    StdinOnce := c.StdinOnce
    TTY := c.TTY }

/-- Modelled from the spec: the extractor `k8s.GetCommonEphemeralContainerFields`,
declared outside `daemon_set.go`. It produces the container summary from an
ephemeral container. -/
def GetCommonEphemeralContainerFields (c : EphemeralContainer) : CommonContainerFields :=
  { Image := c.Image
    ImagePullPolicy := c.ImagePullPolicy
    Command := c.Command
    Args := c.Args
    Resources := c.Resources
    Stdin := c.Stdin
    StdinOnce := c.StdinOnce
    TTY := c.TTY }

/-- Modelled from the spec: the volume extractor `k8s.GetCommonVolumeFields`, declared
outside `daemon_set.go`. It inspects the volume source and sets the discriminator
to the snake-case tag of the variant that is set; an unknown variant degrades to
an empty discriminator. -/
def GetCommonVolumeFields (v : Volume) : CommonVolumeFields :=
  { VolumeType :=
      if v.VolumeSource.HostPath.isSome then "host_path"
      else if v.VolumeSource.EmptyDir.isSome then "empty_dir"
      else if v.VolumeSource.GCEPersistentDisk.isSome then "gce_persistent_disk"
      else if v.VolumeSource.AWSElasticBlockStore.isSome then "aws_elastic_block_store"
      else if v.VolumeSource.ISCSI.isSome then "iscsi"
      else if v.VolumeSource.ScaleIO.isSome then "scale_io"
      else ""
    VolumeSource := v.VolumeSource }

/-- The meta columns of a sample row: cluster uid, name, namespace, uid. -/
def sampleMetaColumns (m : CommonNamespacedFields) : Row :=
  [("cluster_uid", m.ClusterUID), ("name", m.Name), ("namespace", m.Namespace), ("uid", m.UID)]

/-- A concrete instance of the helpers of package `k8s`, for evaluating the
generators: the extractors above with cluster uid `blah`, and row projections
that keep the meta columns and the string columns of each table's own. -/
def sampleK8s : K8s :=
  { GetCommonNamespacedFields := GetCommonNamespacedFields "blah"
    GetCommonPodFields := GetCommonPodFields
    GetCommonContainerFields := GetCommonContainerFields
    GetCommonEphemeralContainerFields := GetCommonEphemeralContainerFields
    GetCommonVolumeFields := GetCommonVolumeFields
    ToMapDaemonSet := fun item =>
      sampleMetaColumns item.CommonNamespacedFields
        ++ [("dns_policy", item.CommonPodFields.DNSPolicy)]
    ToMapContainer := fun item =>
      sampleMetaColumns item.CommonNamespacedFields
        ++ [("container_type", item.ContainerType), ("daemon_set_name", item.DaemonSetName),
            ("image", item.CommonContainerFields.Image)]
    ToMapVolume := fun item =>
      sampleMetaColumns item.CommonNamespacedFields
        ++ [("daemon_set_name", item.DaemonSetName),
            ("volume_type", item.CommonVolumeFields.VolumeType)] }

/-- A fake cluster: a request made with a context that is cancelled at the instant of
the request fails with the context's error; otherwise the request is answered
with the page stored under its continue-token, and fails on an unknown token.
The client state is the logical instant, the number of requests issued. -/
def fakeClient (pages : List (String × DaemonSetList)) : Client Nat :=
  { List := fun ctx _ options now =>
      match ctx.Err now with
      | some err => (Except.error err, now + 1)
      | none =>
        match pages.lookup options.Continue with
        | some page => (Except.ok page, now + 1)
        | none => (Except.error "invalid continue token", now + 1) }

/-- A container with the given name and image and nothing else set. -/
def sampleContainer (name image : String) : Container :=
  { Name := name, Image := image, Command := [], Args := []
    Resources := { Limits := [], Requests := [] }
    ImagePullPolicy := "IfNotPresent", Stdin := false, StdinOnce := false, TTY := false }

/-- A host-path volume with the given name and path. -/
def sampleVolume (name path : String) : Volume :=
  { Name := name, VolumeSource := { HostPath := some { Path := path, Type_ := none } } }

/-- A DaemonSet with the given name, containers, ephemeral containers and volumes,
after the `calico-node` fixture of the tests. -/
def sampleDaemonSet (name : String) (init containers : List Container)
    (ephemeral : List EphemeralContainer) (volumes : List Volume) : DaemonSet :=
  { ObjectMeta :=
      { Name := name, Namespace := "kube-system", UID := "e6fed7f0-f79a-464f-a3d2-b63247a1f590"
        CreationTimestamp := 1610476216, Labels := [("k8s-app", name)], Annotations := [] }
    Spec :=
      { Selector := some { MatchLabels := [("k8s-app", name)] }
        Template :=
          { ObjectMeta :=
              { Name := "", Namespace := "", UID := "", CreationTimestamp := 0
                Labels := [("k8s-app", name)], Annotations := [] }
            Spec :=
              { Volumes := volumes, InitContainers := init, Containers := containers
                EphemeralContainers := ephemeral, RestartPolicy := "Always"
                TerminationGracePeriodSeconds := some 0, DNSPolicy := "ClusterFirst"
                NodeSelector := [("kubernetes.io/os", "linux")]
                ServiceAccountName := "calico-node", HostNetwork := true, HostPID := false
                HostIPC := false, SchedulerName := "default-scheduler"
                PriorityClassName := "system-node-critical" } }
        UpdateStrategy := { Type_ := "RollingUpdate", MaxUnavailable := some 1 }
        MinReadySeconds := 0
        RevisionHistoryLimit := some 10 }
    Status :=
      { CurrentNumberScheduled := 1, NumberMisscheduled := 0, DesiredNumberScheduled := 1
        NumberReady := 1, ObservedGeneration := 1, UpdatedNumberScheduled := 1
        NumberAvailable := 1, NumberUnavailable := 0 } }

/-- The `calico-node` DaemonSet: three init containers, one container, two of its
host-path volumes. -/
def calicoNode : DaemonSet :=
  sampleDaemonSet "calico-node"
    [sampleContainer "upgrade-ipam" "calico/cni:v3.13.2",
     sampleContainer "install-cni" "calico/cni:v3.13.2",
     sampleContainer "flexvol-driver" "calico/pod2daemon-flexvol:v3.13.2"]
    [sampleContainer "calico-node" "calico/node:v3.13.2"]
    []
    [sampleVolume "lib-modules" "/lib/modules", sampleVolume "var-run-calico" "/var/run/calico"]

/-- A second DaemonSet: one container, one ephemeral container, no volume. -/
def kubeProxy : DaemonSet :=
  sampleDaemonSet "kube-proxy" []
    [sampleContainer "kube-proxy" "k8s.gcr.io/kube-proxy:v1.20.1"]
    [{ Name := "debugger", Image := "busybox", Command := [], Args := []
       Resources := { Limits := [], Requests := [] }, ImagePullPolicy := "IfNotPresent"
       Stdin := true, StdinOnce := false, TTY := true, TargetContainerName := "kube-proxy" }]
    []

/-- A fake cluster that lists `calicoNode` and `kubeProxy` in two pages, the first with
continue-token `tok`. -/
def twoPages : List (String × DaemonSetList) :=
  [("", { Items := [calicoNode], Continue := "tok" }),
   ("tok", { Items := [kubeProxy], Continue := "" })]

/-- The same two DaemonSets in one page. -/
def onePage : List (String × DaemonSetList) :=
  [("", { Items := [calicoNode, kubeProxy], Continue := "" })]

/-- A fake cluster whose second page is missing: the request with token `tok` fails. -/
def brokenPages : List (String × DaemonSetList) :=
  [("", { Items := [calicoNode], Continue := "tok" })]

/-- A fake cluster that lists `kubeProxy`, which has no volume, in one page. -/
def noVolumePages : List (String × DaemonSetList) :=
  [("", { Items := [kubeProxy], Continue := "" })]

/-- A fake cluster with nothing to list. -/
def emptyPages : List (String × DaemonSetList) :=
  [("", { Items := [], Continue := "" })]

/-! ## The row projection `k8s.ToMap` -/

/-- Modelled from the spec: a JSON string literal of the serialisation inside
`k8s.ToMap`, which is declared outside `daemon_set.go`; for strings without a character
that JSON escapes. -/
def jsonString (s : String) : String := "\"" ++ s ++ "\""

/-- Modelled from the spec: a JSON object of the serialisation inside `k8s.ToMap`, from
its members in order, no whitespace, a member without a value elided. -/
def jsonObject (members : List (String × Option String)) : String :=
  "\x7b" ++ ",".intercalate
    (members.filterMap (fun m => m.2.map (fun v => jsonString m.1 ++ ":" ++ v))) ++ "\x7d"

/-- Modelled from the spec: the JSON of a mapping from string to string inside
`k8s.ToMap`; the pairs of the mapping are taken in the order of the list, which
stands for the mapping in key order. -/
def jsonStringMap (m : StringMap) : String :=
  jsonObject (m.map (fun kv => (kv.1, some (jsonString kv.2))))

/-- Modelled from the spec: the JSON of an ordered list of strings inside `k8s.ToMap`,
element order preserved. -/
def jsonStringList (l : List String) : String :=
  "[" ++ ",".intercalate (l.map jsonString) ++ "]"

/-- Modelled from the spec: the JSON of a `ResourceRequirements` composite inside
`k8s.ToMap`, an empty mapping elided; `\x7b\x7d` without limits and requests. -/
def jsonResources (r : ResourceRequirements) : String :=
  jsonObject
    [("limits", if r.Limits = [] then none else some (jsonStringMap r.Limits)),
     ("requests", if r.Requests = [] then none else some (jsonStringMap r.Requests))]

/-- Modelled from the spec: the projection rule of `k8s.ToMap` for a scalar string:
empty, omit; else emit verbatim. -/
def projectString (s : String) : Option String := if s = "" then none else some s

/-- Modelled from the spec: the projection rule of `k8s.ToMap` for a scalar integer:
always emit, in base 10. -/
def projectInt (n : Int) : Option String := some (toString n)

/-- Modelled from the spec: the projection rule of `k8s.ToMap` for a scalar boolean:
emit `1` or `0`. -/
def projectBool (b : Bool) : Option String := some (if b then "1" else "0")

/-- Modelled from the spec: the projection rule of `k8s.ToMap` for an optional string:
absent, omit; present, as a scalar string. -/
def projectOptionalString (s : Option String) : Option String := s.bind projectString

/-- Modelled from the spec: the projection rule of `k8s.ToMap` for an optional
integer: absent, omit; present, as a scalar integer. -/
def projectOptionalInt (n : Option Int) : Option String := n.bind projectInt

/-- Modelled from the spec: the projection rule of `k8s.ToMap` for a time instant, held
as seconds since the epoch: omit if zero; else decimal seconds. -/
def projectTime (t : Int) : Option String := if t = 0 then none else some (toString t)

/-- Modelled from the spec: the projection rule of `k8s.ToMap` for a mapping from
string to string: empty, omit; else JSON. -/
def projectStringMap (m : StringMap) : Option String :=
  if m = [] then none else some (jsonStringMap m)

/-- Modelled from the spec: the projection rule of `k8s.ToMap` for an ordered list:
empty, omit; else JSON. -/
def projectStringList (l : List String) : Option String :=
  if l = [] then none else some (jsonStringList l)

/-- Modelled from the spec: the projection rule of `k8s.ToMap` for a named nested
composite that is not optional, from its JSON. The column is emitted also when
the JSON is `\x7b\x7d`: the rows `TestDaemonSetContainersGenerate` expects hold the
column `resources` with the value `\x7b\x7d`. -/
def projectComposite (json : String) : Option String := some json

/-- Modelled from the spec: a row of `k8s.ToMap` from its columns: a column whose
projected value is absent is omitted from the mapping. -/
def columns (cs : List (String × Option String)) : Row :=
  cs.filterMap (fun c => c.2.map (fun v => (c.1, v)))

/-- Modelled from the spec: a leaf of the flat union of per-variant fields in
`k8s.CommonVolumeFields`, declared outside `daemon_set.go`: the field of the variant
when the variant is set, the zero value of the field's type otherwise. -/
def variantLeaf {α β : Type} (variant : Option α) (field : α → β) (zero : β) : β :=
  (variant.map field).getD zero

/-- Modelled from the spec: the projection `k8s.ToMap`, declared outside `daemon_set.go`,
at the record `daemonSet`; columns in the order of their names. The column
`tolerations` is left out, tolerations not being part of the pod summary here. -/
def ToMapDaemonSet (item : daemonSet) : Row :=
  columns
    [("annotations", projectStringMap item.CommonNamespacedFields.Annotations),
     ("cluster_uid", projectString item.CommonNamespacedFields.ClusterUID),
     ("creation_timestamp", projectTime item.CommonNamespacedFields.CreationTimestamp),
     ("current_number_scheduled", projectInt item.DaemonSetStatus.CurrentNumberScheduled),
     ("desired_number_scheduled", projectInt item.DaemonSetStatus.DesiredNumberScheduled),
     ("dns_policy", projectString item.CommonPodFields.DNSPolicy),
     ("host_ipc", projectBool item.CommonPodFields.HostIPC),
     ("host_network", projectBool item.CommonPodFields.HostNetwork),
     ("host_pid", projectBool item.CommonPodFields.HostPID),
     ("labels", projectStringMap item.CommonNamespacedFields.Labels),
     ("min_ready_seconds", projectInt item.MinReadySeconds),
     ("name", projectString item.CommonNamespacedFields.Name),
     ("namespace", projectString item.CommonNamespacedFields.Namespace),
     ("node_selector", projectStringMap item.CommonPodFields.NodeSelector),
     ("number_available", projectInt item.DaemonSetStatus.NumberAvailable),
     ("number_misscheduled", projectInt item.DaemonSetStatus.NumberMisscheduled),
     ("number_ready", projectInt item.DaemonSetStatus.NumberReady),
     ("number_unavailable", projectInt item.DaemonSetStatus.NumberUnavailable),
     ("observed_generation", projectInt item.DaemonSetStatus.ObservedGeneration),
     ("priority_class_name", projectString item.CommonPodFields.PriorityClassName),
     ("restart_policy", projectString item.CommonPodFields.RestartPolicy),
     ("revision_history_limit", projectOptionalInt item.RevisionHistoryLimit),
     ("scheduler_name", projectString item.CommonPodFields.SchedulerName),
     ("selector", item.Selector.map (fun sel =>
        jsonObject [("matchLabels",
          if sel.MatchLabels = [] then none else some (jsonStringMap sel.MatchLabels))])),
     ("service_account_name", projectString item.CommonPodFields.ServiceAccountName),
     ("termination_grace_period_seconds",
        projectOptionalInt item.CommonPodFields.TerminationGracePeriodSeconds),
     ("uid", projectString item.CommonNamespacedFields.UID),
     ("update_strategy", projectComposite (jsonObject
        [("type", (projectString item.UpdateStrategy.Type_).map jsonString),
         ("rollingUpdate", item.UpdateStrategy.MaxUnavailable.map (fun n =>
            jsonObject [("maxUnavailable", some (toString n))]))])),
     ("updated_number_scheduled", projectInt item.DaemonSetStatus.UpdatedNumberScheduled)]

/-- Modelled from the spec: the projection `k8s.ToMap`, declared outside `daemon_set.go`,
at the record `daemonSetContainer`; columns in the order of their names. -/
def ToMapContainer (item : daemonSetContainer) : Row :=
  columns
    [("annotations", projectStringMap item.CommonNamespacedFields.Annotations),
     ("args", projectStringList item.CommonContainerFields.Args),
     ("cluster_uid", projectString item.CommonNamespacedFields.ClusterUID),
     ("command", projectStringList item.CommonContainerFields.Command),
     ("container_type", projectString item.ContainerType),
     ("creation_timestamp", projectTime item.CommonNamespacedFields.CreationTimestamp),
     ("daemon_set_name", projectString item.DaemonSetName),
     ("image", projectString item.CommonContainerFields.Image),
     ("image_pull_policy", projectString item.CommonContainerFields.ImagePullPolicy),
     ("labels", projectStringMap item.CommonNamespacedFields.Labels),
     ("name", projectString item.CommonNamespacedFields.Name),
     ("namespace", projectString item.CommonNamespacedFields.Namespace),
     ("resources", projectComposite (jsonResources item.CommonContainerFields.Resources)),
     ("stdin", projectBool item.CommonContainerFields.Stdin),
     ("stdin_once", projectBool item.CommonContainerFields.StdinOnce),
     ("tty", projectBool item.CommonContainerFields.TTY),
     ("uid", projectString item.CommonNamespacedFields.UID)]

/-- Modelled from the spec: the projection `k8s.ToMap`, declared outside `daemon_set.go`,
at the record `daemonSetVolume`; columns in the order of their names. The flat union
of per-variant fields is walked leaf by leaf under the scalar rules, a leaf of a
variant that is not set having its zero value: a string or optional leaf is
omitted, an integer or boolean leaf is emitted as `0`, as in the rows
`TestDaemonSetVolumesGenerate` expects. The variants kept are those whose columns
these expected rows hold, and the empty-dir variant; for the host-path volumes of
the fixture the columns are exactly those of the expected rows. -/
def ToMapVolume (item : daemonSetVolume) : Row :=
  columns
    [("annotations", projectStringMap item.CommonNamespacedFields.Annotations),
     ("aws_elastic_block_store_partition", projectInt
        (variantLeaf item.CommonVolumeFields.VolumeSource.AWSElasticBlockStore
          (fun x => x.Partition) 0)),
     ("aws_elastic_block_store_volume_id", projectString
        (variantLeaf item.CommonVolumeFields.VolumeSource.AWSElasticBlockStore
          (fun x => x.VolumeID) "")),
     ("cluster_uid", projectString item.CommonNamespacedFields.ClusterUID),
     ("creation_timestamp", projectTime item.CommonNamespacedFields.CreationTimestamp),
     ("daemon_set_name", projectString item.DaemonSetName),
     ("empty_dir_medium", projectString
        (variantLeaf item.CommonVolumeFields.VolumeSource.EmptyDir (fun x => x.Medium) "")),
     ("gce_persistent_disk_partition", projectInt
        (variantLeaf item.CommonVolumeFields.VolumeSource.GCEPersistentDisk
          (fun x => x.Partition) 0)),
     ("gce_persistent_disk_pd_name", projectString
        (variantLeaf item.CommonVolumeFields.VolumeSource.GCEPersistentDisk
          (fun x => x.PDName) "")),
     ("host_path_path", projectString
        (variantLeaf item.CommonVolumeFields.VolumeSource.HostPath (fun x => x.Path) "")),
     ("host_path_type", projectOptionalString
        (variantLeaf item.CommonVolumeFields.VolumeSource.HostPath (fun x => x.Type_) none)),
     ("iscsi_discovery_chap_auth", projectBool
        (variantLeaf item.CommonVolumeFields.VolumeSource.ISCSI
          (fun x => x.DiscoveryCHAPAuth) false)),
     ("iscsi_iqn", projectString
        (variantLeaf item.CommonVolumeFields.VolumeSource.ISCSI (fun x => x.IQN) "")),
     ("iscsi_lun", projectInt
        (variantLeaf item.CommonVolumeFields.VolumeSource.ISCSI (fun x => x.Lun) 0)),
     ("iscsi_session_chap_auth", projectBool
        (variantLeaf item.CommonVolumeFields.VolumeSource.ISCSI
          (fun x => x.SessionCHAPAuth) false)),
     ("iscsi_target_portal", projectString
        (variantLeaf item.CommonVolumeFields.VolumeSource.ISCSI (fun x => x.TargetPortal) "")),
     ("labels", projectStringMap item.CommonNamespacedFields.Labels),
     ("name", projectString item.CommonNamespacedFields.Name),
     ("namespace", projectString item.CommonNamespacedFields.Namespace),
     ("scale_io_gateway", projectString
        (variantLeaf item.CommonVolumeFields.VolumeSource.ScaleIO (fun x => x.Gateway) "")),
     ("scale_io_system", projectString
        (variantLeaf item.CommonVolumeFields.VolumeSource.ScaleIO (fun x => x.System) "")),
     ("scale_iossl_enabled", projectBool
        (variantLeaf item.CommonVolumeFields.VolumeSource.ScaleIO
          (fun x => x.SSLEnabled) false)),
     ("uid", projectString item.CommonNamespacedFields.UID),
     ("volume_type", projectString item.CommonVolumeFields.VolumeType)]

/-- The helpers of package `k8s` as modelled from the spec, for a cluster uid: the
five extractors and the three row projections above. -/
def modelK8s (clusterUID : String) : K8s :=
  { GetCommonNamespacedFields := GetCommonNamespacedFields clusterUID
    GetCommonPodFields := GetCommonPodFields
    GetCommonContainerFields := GetCommonContainerFields
    GetCommonEphemeralContainerFields := GetCommonEphemeralContainerFields
    GetCommonVolumeFields := GetCommonVolumeFields
    ToMapDaemonSet := ToMapDaemonSet
    ToMapContainer := ToMapContainer
    ToMapVolume := ToMapVolume }

/-! ## The fixture and the expected rows of `daemon_set_test.go` -/

/-- The init container `upgrade-ipam` of the test fixture, as far as the expected row
determines the fields kept here. -/
def upgradeIpam : Container :=
  { Name := "upgrade-ipam", Image := "calico/cni:v3.13.2"
    Command := ["/opt/cni/bin/calico-ipam", "-upgrade"], Args := []
    Resources := { Limits := [], Requests := [] }
    ImagePullPolicy := "IfNotPresent", Stdin := false, StdinOnce := false, TTY := false }

/-- The host-path volume `lib-modules` of the test fixture, without a type. -/
def libModules : Volume :=
  { Name := "lib-modules"
    VolumeSource := { HostPath := some { Path := "/lib/modules", Type_ := none } } }

/-- The host-path volume `xtables-lock` of the test fixture, of type `FileOrCreate`. -/
def xtablesLock : Volume :=
  { Name := "xtables-lock"
    VolumeSource :=
      { HostPath := some { Path := "/run/xtables.lock", Type_ := some "FileOrCreate" } } }

/-- The DaemonSet `calico-node` of the test fixture `daemon_set_test.json`, as far as the
expected rows determine it: its metadata with the annotation, its pod summary and
status, the init container `upgrade-ipam` and the volumes `lib-modules` and
`xtables-lock`. -/
def testDaemonSet : DaemonSet :=
  { sampleDaemonSet "calico-node" [upgradeIpam] [] [] [libModules, xtablesLock] with
    ObjectMeta :=
      { Name := "calico-node", Namespace := "kube-system"
        UID := "e6fed7f0-f79a-464f-a3d2-b63247a1f590", CreationTimestamp := 1610476216
        Labels := [("k8s-app", "calico-node")]
        Annotations := [("deprecated.daemonset.template.generation", "1")] } }

/-- The row `TestDaemonSetsGenerate` expects (`daemon_set_test.go`, lines 42-73), as written
there. -/
def expectedDaemonSetRow : Row :=
  [("annotations", "\x7b\"deprecated.daemonset.template.generation\":\"1\"\x7d"),
   ("cluster_uid", "blah"),
   ("creation_timestamp", "1610476216"),
   ("current_number_scheduled", "1"),
   ("desired_number_scheduled", "1"),
   ("dns_policy", "ClusterFirst"),
   ("host_ipc", "0"),
   ("host_network", "1"),
   ("host_pid", "0"),
   ("labels", "\x7b\"k8s-app\":\"calico-node\"\x7d"),
   ("min_ready_seconds", "0"),
   ("name", "calico-node"),
   ("namespace", "kube-system"),
   ("node_selector", "\x7b\"kubernetes.io/os\":\"linux\"\x7d"),
   ("number_available", "1"),
   ("number_misscheduled", "0"),
   ("number_ready", "1"),
   ("number_unavailable", "0"),
   ("observed_generation", "1"),
   ("priority_class_name", "system-node-critical"),
   ("restart_policy", "Always"),
   ("revision_history_limit", "10"),
   ("scheduler_name", "default-scheduler"),
   ("selector", "\x7b\"matchLabels\":\x7b\"k8s-app\":\"calico-node\"\x7d\x7d"),
   ("service_account_name", "calico-node"),
   ("termination_grace_period_seconds", "0"),
   ("tolerations", "[\x7b\"operator\":\"Exists\",\"effect\":\"NoSchedule\"\x7d,\x7b\"key\":\"CriticalAddonsOnly\",\"operator\":\"Exists\"\x7d,\x7b\"operator\":\"Exists\",\"effect\":\"NoExecute\"\x7d]"),
   ("uid", "e6fed7f0-f79a-464f-a3d2-b63247a1f590"),
   ("update_strategy", "\x7b\"type\":\"RollingUpdate\",\"rollingUpdate\":\x7b\"maxUnavailable\":1\x7d\x7d"),
   ("updated_number_scheduled", "1")]

/-- The first row `TestDaemonSetContainersGenerate` expects (`daemon_set_test.go`, lines
82-104), for the init container `upgrade-ipam`. -/
def expectedUpgradeIpamRow : Row :=
  [("annotations", "\x7b\"deprecated.daemonset.template.generation\":\"1\"\x7d"),
   ("cluster_uid", "blah"),
   ("command", "[\"/opt/cni/bin/calico-ipam\",\"-upgrade\"]"),
   ("container_type", "init"),
   ("creation_timestamp", "1610476216"),
   ("daemon_set_name", "calico-node"),
   ("env", "[\x7b\"name\":\"KUBERNETES_NODE_NAME\",\"valueFrom\":\x7b\"fieldRef\":\x7b\"apiVersion\":\"v1\",\"fieldPath\":\"spec.nodeName\"\x7d\x7d\x7d,\x7b\"name\":\"CALICO_NETWORKING_BACKEND\",\"valueFrom\":\x7b\"configMapKeyRef\":\x7b\"name\":\"calico-config\",\"key\":\"calico_backend\"\x7d\x7d\x7d]"),
   ("image", "calico/cni:v3.13.2"),
   ("image_pull_policy", "IfNotPresent"),
   ("labels", "\x7b\"k8s-app\":\"calico-node\"\x7d"),
   ("name", "upgrade-ipam"),
   ("namespace", "kube-system"),
   ("privileged", "1"),
   ("resources", "\x7b\x7d"),
   ("stdin", "0"),
   ("stdin_once", "0"),
   ("termination_message_path", "/dev/termination-log"),
   ("termination_message_policy", "File"),
   ("tty", "0"),
   ("uid", "e6fed7f0-f79a-464f-a3d2-b63247a1f590"),
   ("volume_mounts", "[\x7b\"name\":\"host-local-net-dir\",\"mountPath\":\"/var/lib/cni/networks\"\x7d,\x7b\"name\":\"cni-bin-dir\",\"mountPath\":\"/host/opt/cni/bin\"\x7d]")]

/-- The first row `TestDaemonSetVolumesGenerate` expects (`daemon_set_test.go`, lines
181-198), for the host-path volume `lib-modules`. -/
def expectedLibModulesRow : Row :=
  [("annotations", "\x7b\"deprecated.daemonset.template.generation\":\"1\"\x7d"),
   ("aws_elastic_block_store_partition", "0"),
   ("cluster_uid", "blah"),
   ("creation_timestamp", "1610476216"),
   ("daemon_set_name", "calico-node"),
   ("gce_persistent_disk_partition", "0"),
   ("host_path_path", "/lib/modules"),
   ("iscsi_discovery_chap_auth", "0"),
   ("iscsi_lun", "0"),
   ("iscsi_session_chap_auth", "0"),
   ("labels", "\x7b\"k8s-app\":\"calico-node\"\x7d"),
   ("name", "lib-modules"),
   ("namespace", "kube-system"),
   ("scale_iossl_enabled", "0"),
   ("uid", "e6fed7f0-f79a-464f-a3d2-b63247a1f590"),
   ("volume_type", "host_path")]

/-- The row `TestDaemonSetVolumesGenerate` expects for the host-path volume `xtables-lock`
(`daemon_set_test.go`, lines 235-253), whose type is `FileOrCreate`. -/
def expectedXtablesLockRow : Row :=
  [("annotations", "\x7b\"deprecated.daemonset.template.generation\":\"1\"\x7d"),
   ("aws_elastic_block_store_partition", "0"),
   ("cluster_uid", "blah"),
   ("creation_timestamp", "1610476216"),
   ("daemon_set_name", "calico-node"),
   ("gce_persistent_disk_partition", "0"),
   ("host_path_path", "/run/xtables.lock"),
   ("host_path_type", "FileOrCreate"),
   ("iscsi_discovery_chap_auth", "0"),
   ("iscsi_lun", "0"),
   ("iscsi_session_chap_auth", "0"),
   ("labels", "\x7b\"k8s-app\":\"calico-node\"\x7d"),
   ("name", "xtables-lock"),
   ("namespace", "kube-system"),
   ("scale_iossl_enabled", "0"),
   ("uid", "e6fed7f0-f79a-464f-a3d2-b63247a1f590"),
   ("volume_type", "host_path")]

/-- A host-path volume whose path and type are both the empty string, the type being
set. -/
def emptyPathVolume : Volume :=
  { Name := "scratch", VolumeSource := { HostPath := some { Path := "", Type_ := some "" } } }

/-- A fake cluster that lists the DaemonSet of the test fixture in one page. -/
def testPages : List (String × DaemonSetList) :=
  [("", { Items := [testDaemonSet], Continue := "" })]

/-! ## Decidability of the specification predicates -/

deriving instance DecidableEq for Except

/-- Whether a client serves given pages can be computed by asking it. -/
instance Serves.decidable {σ : Type} (client : Client σ) :
    ∀ (s : σ) (options : ListOptions) (pages : List DaemonSetList),
      Decidable (Serves client s options pages)
  | _, _, [] => isFalse (fun h => h)
  | s, options, page :: rest =>
    if h1 : (client.List Context.TODO NamespaceAll options s).1 = Except.ok page then
      if h2 : page.Continue = "" then
        if h3 : rest = [] then isTrue (by simp [Serves, h1, h2, h3])
        else isFalse (by simp [Serves, h1, h2, h3])
      else
        match Serves.decidable client (client.List Context.TODO NamespaceAll options s).2
            { options with Continue := page.Continue } rest with
        | isTrue h => isTrue (by simp only [Serves, h2, if_false]; exact ⟨h1, h⟩)
        | isFalse h => isFalse (by simp only [Serves, h2, if_false]; exact fun hh => h hh.2)
    else isFalse (by simp [Serves, h1])

/-- Whether a client serves given pages and then fails can be computed by asking it. -/
instance ServesThenFails.decidable {σ : Type} (client : Client σ) :
    ∀ (s : σ) (options : ListOptions) (pages : List DaemonSetList) (err : Error),
      Decidable (ServesThenFails client s options pages err)
  | s, options, [], err =>
    if h : (client.List Context.TODO NamespaceAll options s).1 = Except.error err then
      isTrue (by simp [ServesThenFails, h])
    else isFalse (by simp [ServesThenFails, h])
  | s, options, page :: rest, err =>
    if h1 : (client.List Context.TODO NamespaceAll options s).1 = Except.ok page then
      if h2 : page.Continue = "" then isFalse (by simp [ServesThenFails, h2])
      else
        match ServesThenFails.decidable client
            (client.List Context.TODO NamespaceAll options s).2
            { options with Continue := page.Continue } rest err with
        | isTrue h => isTrue ⟨h1, h2, h⟩
        | isFalse h => isFalse (fun hh => h hh.2.2)
    else isFalse (fun hh => h1 hh.1)

/-! ## The three loops are the shared pagination loop -/

theorem foldl_append_some {α β : Type} (f : α → β) (xs : List α) (acc : List β) :
    xs.foldl (fun results x => append results (f x)) (some acc) = some (acc ++ xs.map f) := by
  induction xs generalizing acc with
  | nil => simp
  | cons x xs ih =>
    rw [List.foldl_cons]
    show xs.foldl _ (some (acc ++ [f x])) = _
    rw [ih]
    simp

theorem foldl_body_flatMap {α β : Type} (body : Slice β → α → Slice β) (g : α → List β)
    (hbody : ∀ acc x, body (some acc) x = some (acc ++ g x)) (xs : List α) (acc : List β) :
    xs.foldl body (some acc) = some (acc ++ xs.flatMap g) := by
  induction xs generalizing acc with
  | nil => simp
  | cons x xs ih => simp [ih, hbody, List.flatMap_cons]

theorem daemonSets_body_eq (k : K8s) (results : List Row) (ds : DaemonSet) :
    append (some results) (k.ToMapDaemonSet (daemonSetItem k ds))
      = some (results ++ [k.ToMapDaemonSet (daemonSetItem k ds)]) := rfl

theorem containers_body_eq (k : K8s) (results : List Row) (ds : DaemonSet) :
    DaemonSetContainersGenerate.body k (some results) ds
      = some (results ++ containerRows k ds) := by
  simp [DaemonSetContainersGenerate.body, containerRows, foldl_append_some]

theorem volumes_body_eq (k : K8s) (results : List Row) (ds : DaemonSet) :
    DaemonSetVolumesGenerate.body k (some results) ds = some (results ++ volumeRows k ds) := by
  simp [DaemonSetVolumesGenerate.body, volumeRows, foldl_append_some]

theorem daemonSets_loop_eq_paginate {σ : Type} (k : K8s) (client : Client σ) (fuel : Nat)
    (options : ListOptions) (results : List Row) (s : σ) :
    DaemonSetsGenerate.loop k client fuel options (some results) s
      = paginate client (fun ds => [k.ToMapDaemonSet (daemonSetItem k ds)])
          fuel options results s := by
  induction fuel generalizing options results s with
  | zero => rfl
  | succ fuel ih =>
    simp only [DaemonSetsGenerate.loop, paginate]
    rcases client.List Context.TODO NamespaceAll options s with ⟨r, s'⟩
    cases r with
    | error err => rfl
    | ok dss =>
      simp only [foldl_body_flatMap
        (fun results ds => append results (k.ToMapDaemonSet (daemonSetItem k ds)))
        (fun ds => [k.ToMapDaemonSet (daemonSetItem k ds)]) (daemonSets_body_eq k), ih]

theorem containers_loop_eq_paginate {σ : Type} (k : K8s) (client : Client σ) (fuel : Nat)
    (options : ListOptions) (results : List Row) (s : σ) :
    DaemonSetContainersGenerate.loop k client fuel options (some results) s
      = paginate client (containerRows k) fuel options results s := by
  induction fuel generalizing options results s with
  | zero => rfl
  | succ fuel ih =>
    simp only [DaemonSetContainersGenerate.loop, paginate]
    rcases client.List Context.TODO NamespaceAll options s with ⟨r, s'⟩
    cases r with
    | error err => rfl
    | ok dss =>
      simp only [foldl_body_flatMap _ (containerRows k) (containers_body_eq k), ih]

theorem volumes_loop_eq_paginate {σ : Type} (k : K8s) (client : Client σ) (fuel : Nat)
    (options : ListOptions) (results : List Row) (s : σ) :
    DaemonSetVolumesGenerate.loop k client fuel options (some results) s
      = paginate client (volumeRows k) fuel options results s := by
  induction fuel generalizing options results s with
  | zero => rfl
  | succ fuel ih =>
    simp only [DaemonSetVolumesGenerate.loop, paginate]
    rcases client.List Context.TODO NamespaceAll options s with ⟨r, s'⟩
    cases r with
    | error err => rfl
    | ok dss =>
      simp only [foldl_body_flatMap _ (volumeRows k) (volumes_body_eq k), ih]

/-! ## The shared pagination loop against a client that serves given pages -/

theorem paginate_of_serves {σ : Type} (client : Client σ) (rowsOf : DaemonSet → List Row)
    (pages : List DaemonSetList) :
    ∀ (fuel : Nat) (options : ListOptions) (results : List Row) (s : σ),
      Serves client s options pages → pages.length ≤ fuel →
      (paginate client rowsOf fuel options results s).map Prod.fst
        = some { rows := some (results ++ (allItems pages).flatMap rowsOf), err := none } := by
  induction pages with
  | nil => intro fuel options results s h; exact absurd h (by simp [Serves])
  | cons page rest ih =>
    intro fuel options results s h hfuel
    cases fuel with
    | zero => simp at hfuel
    | succ fuel =>
      simp only [Serves] at h
      obtain ⟨hpage, hrest⟩ := h
      simp only [paginate]
      rcases hreq : client.List Context.TODO NamespaceAll options s with ⟨r, s'⟩
      rw [hreq] at hpage hrest
      simp only at hpage hrest
      subst hpage
      by_cases hc : page.Continue = ""
      · simp only [hc, if_true] at hrest ⊢
        subst hrest
        simp [allItems]
      · simp only [hc, if_false] at hrest ⊢
        have := ih fuel _ (results ++ page.Items.flatMap rowsOf) s' hrest
          (by simpa using hfuel)
        simpa [allItems, List.flatMap_cons, List.flatMap_append] using this

theorem paginate_of_servesThenFails {σ : Type} (client : Client σ)
    (rowsOf : DaemonSet → List Row) (pages : List DaemonSetList) (err : Error) :
    ∀ (fuel : Nat) (options : ListOptions) (results : List Row) (s : σ),
      ServesThenFails client s options pages err → pages.length + 1 ≤ fuel →
      (paginate client rowsOf fuel options results s).map Prod.fst
        = some { rows := none, err := some err } := by
  induction pages with
  | nil =>
    intro fuel options results s h hfuel
    cases fuel with
    | zero => simp at hfuel
    | succ fuel =>
      simp only [ServesThenFails] at h
      simp only [paginate]
      rcases hreq : client.List Context.TODO NamespaceAll options s with ⟨r, s'⟩
      rw [hreq] at h
      simp only at h
      subst h
      rfl
  | cons page rest ih =>
    intro fuel options results s h hfuel
    cases fuel with
    | zero => simp at hfuel
    | succ fuel =>
      simp only [ServesThenFails] at h
      obtain ⟨hpage, hc, hrest⟩ := h
      simp only [paginate]
      rcases hreq : client.List Context.TODO NamespaceAll options s with ⟨r, s'⟩
      rw [hreq] at hpage hrest
      simp only at hpage hrest
      subst hpage
      simp only [hc, if_false]
      exact ih fuel _ _ s' hrest (by simpa using hfuel)

theorem paginate_rows_or_error {σ : Type} (client : Client σ) (rowsOf : DaemonSet → List Row) :
    ∀ (fuel : Nat) (options : ListOptions) (results : List Row) (s : σ)
      (r : GenerateResult) (s' : σ),
      paginate client rowsOf fuel options results s = some (r, s') →
      (r.rows = none ∧ r.err ≠ none) ∨ (r.rows ≠ none ∧ r.err = none) := by
  intro fuel
  induction fuel with
  | zero => intro options results s r s' h; simp [paginate] at h
  | succ fuel ih =>
    intro options results s r s' h
    simp only [paginate] at h
    rcases hreq : client.List Context.TODO NamespaceAll options s with ⟨a, t⟩
    rw [hreq] at h
    cases a with
    | error err =>
      simp only [Option.some.injEq, Prod.mk.injEq] at h
      obtain ⟨hr, _⟩ := h
      subst hr
      simp
    | ok dss =>
      simp only at h
      by_cases hc : dss.Continue = ""
      · simp only [hc, if_true, Option.some.injEq, Prod.mk.injEq] at h
        obtain ⟨hr, _⟩ := h
        subst hr
        simp
      · simp only [hc, if_false] at h
        exact ih _ _ _ r s' h

/-! ## The generators against a client that serves given pages -/

theorem flatMap_singleton_eq_map {α β : Type} (f : α → β) (xs : List α) :
    xs.flatMap (fun x => [f x]) = xs.map f := by
  induction xs with
  | nil => rfl
  | cons x xs ih => simp [List.flatMap_cons, ih]

theorem daemonSets_of_serves {σ : Type} (k : K8s) (client : Client σ) (s : σ)
    (pages : List DaemonSetList) (fuel : Nat) (ctx : Context) (queryContext : QueryContext)
    (h : Serves client s {} pages) (hfuel : pages.length ≤ fuel) :
    (DaemonSetsGenerate k client fuel ctx queryContext s).map Prod.fst
      = some { rows := some ((allItems pages).map
                  (fun ds => k.ToMapDaemonSet (daemonSetItem k ds))),
               err := none } := by
  unfold DaemonSetsGenerate makeEmpty
  rw [daemonSets_loop_eq_paginate, paginate_of_serves client _ pages fuel {} [] s h hfuel,
    flatMap_singleton_eq_map]
  rfl

theorem containers_of_serves {σ : Type} (k : K8s) (client : Client σ) (s : σ)
    (pages : List DaemonSetList) (fuel : Nat) (ctx : Context) (queryContext : QueryContext)
    (h : Serves client s {} pages) (hfuel : pages.length ≤ fuel) :
    (DaemonSetContainersGenerate k client fuel ctx queryContext s).map Prod.fst
      = some { rows := some ((allItems pages).flatMap (containerRows k)), err := none } := by
  unfold DaemonSetContainersGenerate makeEmpty
  rw [containers_loop_eq_paginate, paginate_of_serves client _ pages fuel {} [] s h hfuel]
  rfl

theorem volumes_of_serves {σ : Type} (k : K8s) (client : Client σ) (s : σ)
    (pages : List DaemonSetList) (fuel : Nat) (ctx : Context) (queryContext : QueryContext)
    (h : Serves client s {} pages) (hfuel : pages.length ≤ fuel) :
    (DaemonSetVolumesGenerate k client fuel ctx queryContext s).map Prod.fst
      = some { rows := some ((allItems pages).flatMap (volumeRows k)), err := none } := by
  unfold DaemonSetVolumesGenerate makeEmpty
  rw [volumes_loop_eq_paginate, paginate_of_serves client _ pages fuel {} [] s h hfuel]
  rfl

theorem allItems_single (items : List DaemonSet) :
    allItems [{ Items := items, Continue := "" }] = items := by
  simp [allItems]

/-! ## Pagination -/

/-- C1. For each of the three generators: when the client serves an item list in
`K >= 1` successful pages (every page but the last with a non-empty
continue-token), the generator returns, given fuel for `K` iterations, the same
rows with a nil error as it returns against a client that serves the same items,
in the same order, in a single page. -/
theorem paged_listing_eq_single_page {σ τ : Type} (k : K8s)
    (client : Client σ) (s : σ) (single : Client τ) (t : τ)
    (pages : List DaemonSetList) (fuel fuel' : Nat) (ctx ctx' : Context)
    (queryContext queryContext' : QueryContext)
    (hpages : Serves client s {} pages)
    (hsingle : Serves single t {} [{ Items := allItems pages, Continue := "" }])
    (hfuel : pages.length ≤ fuel) (hfuel' : 1 ≤ fuel') :
    (∃ rows,
      (DaemonSetsGenerate k client fuel ctx queryContext s).map Prod.fst
        = some { rows := some rows, err := none } ∧
      (DaemonSetsGenerate k single fuel' ctx' queryContext' t).map Prod.fst
        = some { rows := some rows, err := none }) ∧
    (∃ rows,
      (DaemonSetContainersGenerate k client fuel ctx queryContext s).map Prod.fst
        = some { rows := some rows, err := none } ∧
      (DaemonSetContainersGenerate k single fuel' ctx' queryContext' t).map Prod.fst
        = some { rows := some rows, err := none }) ∧
    (∃ rows,
      (DaemonSetVolumesGenerate k client fuel ctx queryContext s).map Prod.fst
        = some { rows := some rows, err := none } ∧
      (DaemonSetVolumesGenerate k single fuel' ctx' queryContext' t).map Prod.fst
        = some { rows := some rows, err := none }) := by
  refine ⟨⟨_, daemonSets_of_serves k client s pages fuel ctx queryContext hpages hfuel, ?_⟩,
    ⟨_, containers_of_serves k client s pages fuel ctx queryContext hpages hfuel, ?_⟩,
    ⟨_, volumes_of_serves k client s pages fuel ctx queryContext hpages hfuel, ?_⟩⟩
  · rw [daemonSets_of_serves k single t _ fuel' ctx' queryContext' hsingle (by simpa using hfuel'),
      allItems_single]
  · rw [containers_of_serves k single t _ fuel' ctx' queryContext' hsingle
      (by simpa using hfuel'), allItems_single]
  · rw [volumes_of_serves k single t _ fuel' ctx' queryContext' hsingle (by simpa using hfuel'),
      allItems_single]

/-- Witness of C1: `calicoNode` and `kubeProxy` listed in two pages and in one. -/
theorem paged_listing_eq_single_page_witness :
    Serves (fakeClient twoPages) 0 {}
      [{ Items := [calicoNode], Continue := "tok" }, { Items := [kubeProxy], Continue := "" }] ∧
    ((∃ rows,
      (DaemonSetsGenerate sampleK8s (fakeClient twoPages) 2 Context.TODO
          { Constraints := [] } 0).map Prod.fst
        = some { rows := some rows, err := none } ∧
      (DaemonSetsGenerate sampleK8s (fakeClient onePage) 1 Context.TODO
          { Constraints := [] } 0).map Prod.fst
        = some { rows := some rows, err := none }) ∧
    (∃ rows,
      (DaemonSetContainersGenerate sampleK8s (fakeClient twoPages) 2 Context.TODO
          { Constraints := [] } 0).map Prod.fst
        = some { rows := some rows, err := none } ∧
      (DaemonSetContainersGenerate sampleK8s (fakeClient onePage) 1 Context.TODO
          { Constraints := [] } 0).map Prod.fst
        = some { rows := some rows, err := none }) ∧
    (∃ rows,
      (DaemonSetVolumesGenerate sampleK8s (fakeClient twoPages) 2 Context.TODO
          { Constraints := [] } 0).map Prod.fst
        = some { rows := some rows, err := none } ∧
      (DaemonSetVolumesGenerate sampleK8s (fakeClient onePage) 1 Context.TODO
          { Constraints := [] } 0).map Prod.fst
        = some { rows := some rows, err := none })) :=
  ⟨by decide,
   paged_listing_eq_single_page sampleK8s (fakeClient twoPages) 0 (fakeClient onePage) 0
    [{ Items := [calicoNode], Continue := "tok" }, { Items := [kubeProxy], Continue := "" }]
    2 1 Context.TODO Context.TODO { Constraints := [] } { Constraints := [] }
    (by decide) (by decide) (by decide) (by decide)⟩

/-! ## Errors -/

theorem daemonSets_rows_or_error {σ : Type} (k : K8s) (client : Client σ) (fuel : Nat)
    (ctx : Context) (queryContext : QueryContext) (s s' : σ) (r : GenerateResult)
    (h : DaemonSetsGenerate k client fuel ctx queryContext s = some (r, s')) :
    (r.rows = none ∧ r.err ≠ none) ∨ (r.rows ≠ none ∧ r.err = none) := by
  unfold DaemonSetsGenerate makeEmpty at h
  rw [daemonSets_loop_eq_paginate] at h
  exact paginate_rows_or_error client _ fuel _ _ s r s' h

theorem containers_rows_or_error {σ : Type} (k : K8s) (client : Client σ) (fuel : Nat)
    (ctx : Context) (queryContext : QueryContext) (s s' : σ) (r : GenerateResult)
    (h : DaemonSetContainersGenerate k client fuel ctx queryContext s = some (r, s')) :
    (r.rows = none ∧ r.err ≠ none) ∨ (r.rows ≠ none ∧ r.err = none) := by
  unfold DaemonSetContainersGenerate makeEmpty at h
  rw [containers_loop_eq_paginate] at h
  exact paginate_rows_or_error client _ fuel _ _ s r s' h

theorem volumes_rows_or_error {σ : Type} (k : K8s) (client : Client σ) (fuel : Nat)
    (ctx : Context) (queryContext : QueryContext) (s s' : σ) (r : GenerateResult)
    (h : DaemonSetVolumesGenerate k client fuel ctx queryContext s = some (r, s')) :
    (r.rows = none ∧ r.err ≠ none) ∨ (r.rows ≠ none ∧ r.err = none) := by
  unfold DaemonSetVolumesGenerate makeEmpty at h
  rw [volumes_loop_eq_paginate] at h
  exact paginate_rows_or_error client _ fuel _ _ s r s' h

/-- C2. For each of the three generators: when the client answers some pages
successfully (each with a non-empty continue-token, possibly none at all) and the
next list request with an error, the generator returns that error and a nil row
sequence, the rows built from the earlier pages being dropped. Moreover, in every
run of a generator against any client, a returned error comes with a nil row
sequence. -/
theorem list_error_returned_without_rows {σ : Type} (k : K8s) (client : Client σ) (s : σ)
    (pages : List DaemonSetList) (err : Error) (fuel : Nat) (ctx : Context)
    (queryContext : QueryContext)
    (h : ServesThenFails client s {} pages err) (hfuel : pages.length + 1 ≤ fuel) :
    ((DaemonSetsGenerate k client fuel ctx queryContext s).map Prod.fst
        = some { rows := none, err := some err } ∧
      (DaemonSetContainersGenerate k client fuel ctx queryContext s).map Prod.fst
        = some { rows := none, err := some err } ∧
      (DaemonSetVolumesGenerate k client fuel ctx queryContext s).map Prod.fst
        = some { rows := none, err := some err }) ∧
    (∀ (τ : Type) (other : Client τ) (n : Nat) (c : Context) (q : QueryContext) (t t' : τ)
        (r : GenerateResult),
      (DaemonSetsGenerate k other n c q t = some (r, t') ∨
        DaemonSetContainersGenerate k other n c q t = some (r, t') ∨
        DaemonSetVolumesGenerate k other n c q t = some (r, t')) →
      r.err ≠ none → r.rows = none) := by
  refine ⟨⟨?_, ?_, ?_⟩, ?_⟩
  · unfold DaemonSetsGenerate makeEmpty
    rw [daemonSets_loop_eq_paginate]
    exact paginate_of_servesThenFails client _ pages err fuel {} [] s h hfuel
  · unfold DaemonSetContainersGenerate makeEmpty
    rw [containers_loop_eq_paginate]
    exact paginate_of_servesThenFails client _ pages err fuel {} [] s h hfuel
  · unfold DaemonSetVolumesGenerate makeEmpty
    rw [volumes_loop_eq_paginate]
    exact paginate_of_servesThenFails client _ pages err fuel {} [] s h hfuel
  · intro τ other n c q t t' r hrun herr
    have hor : (r.rows = none ∧ r.err ≠ none) ∨ (r.rows ≠ none ∧ r.err = none) := by
      rcases hrun with hrun | hrun | hrun
      · exact daemonSets_rows_or_error k other n c q t t' r hrun
      · exact containers_rows_or_error k other n c q t t' r hrun
      · exact volumes_rows_or_error k other n c q t t' r hrun
    rcases hor with hor | hor
    · exact hor.1
    · exact absurd hor.2 herr

/-- Witness of C2: the first page is served, the request for the second page fails. -/
theorem list_error_returned_without_rows_witness :
    ServesThenFails (fakeClient brokenPages) 0 {}
      [{ Items := [calicoNode], Continue := "tok" }] "invalid continue token" ∧
    (DaemonSetContainersGenerate sampleK8s (fakeClient brokenPages) 2 Context.TODO
        { Constraints := [] } 0).map Prod.fst
      = some { rows := none, err := some "invalid continue token" } :=
  ⟨by decide,
   (list_error_returned_without_rows sampleK8s (fakeClient brokenPages) 0
      [{ Items := [calicoNode], Continue := "tok" }] "invalid continue token" 2 Context.TODO
      { Constraints := [] } (by decide) (by decide)).1.2.1⟩

/-! ## Cancellation of the host context -/

/-- Counterexample to C3. The host context is cancelled from instant 1 on, that is
before the second list request, and the fake cluster fails a request made with a
cancelled context; all the same `DaemonSetsGenerate` issues the second request,
and returns the rows of both pages and a nil error, and so do the other two
generators. -/
theorem host_cancellation_not_observed :
    Context.Err { cancelledFrom := some 1 } 1 = some "context canceled" ∧
    ((fakeClient twoPages).List { cancelledFrom := some 1 } NamespaceAll
        { Continue := "tok" } 1).1 = Except.error "context canceled" ∧
    DaemonSetsGenerate sampleK8s (fakeClient twoPages) 2 { cancelledFrom := some 1 }
        { Constraints := [] } 0
      = some ({ rows := some
                  [[("cluster_uid", "blah"), ("name", "calico-node"),
                    ("namespace", "kube-system"),
                    ("uid", "e6fed7f0-f79a-464f-a3d2-b63247a1f590"),
                    ("dns_policy", "ClusterFirst")],
                   [("cluster_uid", "blah"), ("name", "kube-proxy"),
                    ("namespace", "kube-system"),
                    ("uid", "e6fed7f0-f79a-464f-a3d2-b63247a1f590"),
                    ("dns_policy", "ClusterFirst")]],
                err := none }, 2) ∧
    (DaemonSetContainersGenerate sampleK8s (fakeClient twoPages) 2 { cancelledFrom := some 1 }
        { Constraints := [] } 0).map (fun r => (r.1.rows.map List.length, r.1.err))
      = some (some 6, none) ∧
    (DaemonSetVolumesGenerate sampleK8s (fakeClient twoPages) 2 { cancelledFrom := some 1 }
        { Constraints := [] } 0).map (fun r => (r.1.rows.map List.length, r.1.err))
      = some (some 2, none) := by
  decide

/-- C3, amended. The generators do not consult the host context: every list request
is made with `context.TODO()`. For each of the three generators, when `ctx` is
cancelled before the second list request and the client serves its pages to
requests made with `context.TODO()`, the generator returns the rows of all pages
and a nil error; and its outcome is the same for every other host context. -/
theorem host_context_ignored {σ : Type} (k : K8s) (client : Client σ) (s : σ)
    (pages : List DaemonSetList) (fuel : Nat) (ctx : Context) (queryContext : QueryContext)
    (hcancelled : ctx.Err 1 ≠ none)
    (h : Serves client s {} pages) (hfuel : pages.length ≤ fuel) :
    ((DaemonSetsGenerate k client fuel ctx queryContext s).map Prod.fst
        = some { rows := some ((allItems pages).map
                    (fun ds => k.ToMapDaemonSet (daemonSetItem k ds))),
                 err := none } ∧
      (DaemonSetContainersGenerate k client fuel ctx queryContext s).map Prod.fst
        = some { rows := some ((allItems pages).flatMap (containerRows k)), err := none } ∧
      (DaemonSetVolumesGenerate k client fuel ctx queryContext s).map Prod.fst
        = some { rows := some ((allItems pages).flatMap (volumeRows k)), err := none }) ∧
    (∀ (ctx' : Context) (n : Nat),
      DaemonSetsGenerate k client n ctx queryContext s
        = DaemonSetsGenerate k client n ctx' queryContext s ∧
      DaemonSetContainersGenerate k client n ctx queryContext s
        = DaemonSetContainersGenerate k client n ctx' queryContext s ∧
      DaemonSetVolumesGenerate k client n ctx queryContext s
        = DaemonSetVolumesGenerate k client n ctx' queryContext s) :=
  ⟨⟨daemonSets_of_serves k client s pages fuel ctx queryContext h hfuel,
    containers_of_serves k client s pages fuel ctx queryContext h hfuel,
    volumes_of_serves k client s pages fuel ctx queryContext h hfuel⟩,
   fun _ _ => ⟨rfl, rfl, rfl⟩⟩

/-- Witness of C3, amended: the two-page fake cluster and a host context cancelled
from instant 1 on. -/
theorem host_context_ignored_witness :
    Context.Err { cancelledFrom := some 1 } 1 ≠ none ∧
    Serves (fakeClient twoPages) 0 {}
      [{ Items := [calicoNode], Continue := "tok" }, { Items := [kubeProxy], Continue := "" }] ∧
    (DaemonSetVolumesGenerate sampleK8s (fakeClient twoPages) 2 { cancelledFrom := some 1 }
        { Constraints := [] } 0).map Prod.fst
      = some { rows := some ((allItems
                  [{ Items := [calicoNode], Continue := "tok" },
                   { Items := [kubeProxy], Continue := "" }]).flatMap (volumeRows sampleK8s)),
               err := none } :=
  ⟨by decide, by decide,
   (host_context_ignored sampleK8s (fakeClient twoPages) 0
      [{ Items := [calicoNode], Continue := "tok" }, { Items := [kubeProxy], Continue := "" }]
      2 { cancelledFrom := some 1 } { Constraints := [] }
      (by decide) (by decide) (by decide)).1.2.2⟩

/-! ## The container table -/

theorem length_flatMap_eq_sum {α β : Type} (f : α → List β) (xs : List α) :
    (xs.flatMap f).length = (xs.map (fun x => (f x).length)).sum := by
  induction xs with
  | nil => rfl
  | cons x xs ih => simp [List.flatMap_cons, ih]

theorem map_flatMap_eq {α β γ : Type} (f : α → List β) (g : β → γ) (xs : List α) :
    (xs.flatMap f).map g = xs.flatMap (fun x => (f x).map g) := by
  induction xs with
  | nil => rfl
  | cons x xs ih => simp [List.flatMap_cons, ih]

theorem containerRows_eq_map_items (k : K8s) (ds : DaemonSet) :
    containerRows k ds = (containerItems k ds).map k.ToMapContainer := by
  simp only [containerRows, containerItems, List.map_append, List.map_map]
  rfl

theorem volumeRows_eq_map_items (k : K8s) (ds : DaemonSet) :
    volumeRows k ds = (volumeItems k ds).map k.ToMapVolume := by
  simp only [volumeRows, volumeItems, List.map_map]
  rfl

/-- C4. In every successful run of `DaemonSetContainersGenerate` (the client serves the
pages, the fuel covers them) the number of rows returned is the sum, over all
listed DaemonSets of all pages, of the lengths of `InitContainers`, `Containers` and
`EphemeralContainers` of the pod template spec. -/
theorem container_row_count {σ : Type} (k : K8s) (client : Client σ) (s : σ)
    (pages : List DaemonSetList) (fuel : Nat) (ctx : Context) (queryContext : QueryContext)
    (h : Serves client s {} pages) (hfuel : pages.length ≤ fuel) :
    ∃ rows,
      (DaemonSetContainersGenerate k client fuel ctx queryContext s).map Prod.fst
        = some { rows := some rows, err := none } ∧
      rows.length = ((allItems pages).map (fun ds =>
        ds.Spec.Template.Spec.InitContainers.length
          + ds.Spec.Template.Spec.Containers.length
          + ds.Spec.Template.Spec.EphemeralContainers.length)).sum := by
  refine ⟨_, containers_of_serves k client s pages fuel ctx queryContext h hfuel, ?_⟩
  rw [length_flatMap_eq_sum]
  congr 1
  apply List.map_congr_left
  intro ds _
  simp [containerRows, Nat.add_assoc]

/-- Witness of C4: the two-page fake cluster yields 4 + 2 rows. -/
theorem container_row_count_witness :
    ∃ rows,
      (DaemonSetContainersGenerate sampleK8s (fakeClient twoPages) 2 Context.TODO
          { Constraints := [] } 0).map Prod.fst
        = some { rows := some rows, err := none } ∧
      rows.length = ((allItems
          [{ Items := [calicoNode], Continue := "tok" },
           { Items := [kubeProxy], Continue := "" }]).map (fun ds =>
        ds.Spec.Template.Spec.InitContainers.length
          + ds.Spec.Template.Spec.Containers.length
          + ds.Spec.Template.Spec.EphemeralContainers.length)).sum :=
  container_row_count sampleK8s (fakeClient twoPages) 0
    [{ Items := [calicoNode], Continue := "tok" }, { Items := [kubeProxy], Continue := "" }]
    2 Context.TODO { Constraints := [] } (by decide) (by decide)

/-- C5. The three record constructors of `DaemonSetContainersGenerate` tag an element
of `InitContainers` with `init`, of `Containers` with `container`, of
`EphemeralContainers` with `ephemeral`; and in every successful run the rows are the
projections of records each of which is built from a container of one of the
three lists of a listed DaemonSet and carries the tag of that list, so one of the
three tags. -/
theorem container_type_matches_source_list {σ : Type} (k : K8s) (client : Client σ) (s : σ)
    (pages : List DaemonSetList) (fuel : Nat) (ctx : Context) (queryContext : QueryContext)
    (h : Serves client s {} pages) (hfuel : pages.length ≤ fuel) :
    (∀ ds c, (initContainerItem k ds c).ContainerType = "init") ∧
    (∀ ds c, (containerItem k ds c).ContainerType = "container") ∧
    (∀ ds c, (ephemeralContainerItem k ds c).ContainerType = "ephemeral") ∧
    (DaemonSetContainersGenerate k client fuel ctx queryContext s).map Prod.fst
      = some { rows := some (((allItems pages).flatMap (containerItems k)).map
                  k.ToMapContainer),
               err := none } ∧
    ∀ item ∈ (allItems pages).flatMap (containerItems k),
      (item.ContainerType = "init" ∨ item.ContainerType = "container"
        ∨ item.ContainerType = "ephemeral") ∧
      ∃ ds ∈ allItems pages,
        (item.ContainerType = "init" ∧
          ∃ c ∈ ds.Spec.Template.Spec.InitContainers, item = initContainerItem k ds c) ∨
        (item.ContainerType = "container" ∧
          ∃ c ∈ ds.Spec.Template.Spec.Containers, item = containerItem k ds c) ∨
        (item.ContainerType = "ephemeral" ∧
          ∃ c ∈ ds.Spec.Template.Spec.EphemeralContainers,
            item = ephemeralContainerItem k ds c) := by
  refine ⟨fun _ _ => rfl, fun _ _ => rfl, fun _ _ => rfl, ?_, ?_⟩
  · rw [containers_of_serves k client s pages fuel ctx queryContext h hfuel, map_flatMap_eq,
      funext (containerRows_eq_map_items k)]
  · intro item hitem
    rw [List.mem_flatMap] at hitem
    obtain ⟨ds, hds, hmem⟩ := hitem
    simp only [containerItems, List.mem_append, List.mem_map] at hmem
    rcases hmem with (⟨c, hc, rfl⟩ | ⟨c, hc, rfl⟩) | ⟨c, hc, rfl⟩
    · exact ⟨Or.inl rfl, ds, hds, Or.inl ⟨rfl, c, hc, rfl⟩⟩
    · exact ⟨Or.inr (Or.inl rfl), ds, hds, Or.inr (Or.inl ⟨rfl, c, hc, rfl⟩)⟩
    · exact ⟨Or.inr (Or.inr rfl), ds, hds, Or.inr (Or.inr ⟨rfl, c, hc, rfl⟩)⟩

/-- Witness of C5: the container types of the records of the two-page fake cluster. -/
theorem container_type_matches_source_list_witness :
    ((allItems [{ Items := [calicoNode], Continue := "tok" },
        { Items := [kubeProxy], Continue := "" }]).flatMap (containerItems sampleK8s)).map
        (fun item => item.ContainerType)
      = ["init", "init", "init", "container", "container", "ephemeral"] ∧
    (DaemonSetContainersGenerate sampleK8s (fakeClient twoPages) 2 Context.TODO
        { Constraints := [] } 0).map Prod.fst
      = some { rows := some (((allItems [{ Items := [calicoNode], Continue := "tok" },
                  { Items := [kubeProxy], Continue := "" }]).flatMap
                  (containerItems sampleK8s)).map sampleK8s.ToMapContainer),
               err := none } :=
  ⟨by decide,
   (container_type_matches_source_list sampleK8s (fakeClient twoPages) 0
      [{ Items := [calicoNode], Continue := "tok" }, { Items := [kubeProxy], Continue := "" }]
      2 Context.TODO { Constraints := [] } (by decide) (by decide)).2.2.2.1⟩

/-- C6. In every successful run of `DaemonSetContainersGenerate` the rows are, for the
listed DaemonSets in list order (page after page), the rows of the DaemonSet's
init containers, then of its containers, then of its ephemeral containers, each
group in the order of its source list. -/
theorem container_rows_order {σ : Type} (k : K8s) (client : Client σ) (s : σ)
    (pages : List DaemonSetList) (fuel : Nat) (ctx : Context) (queryContext : QueryContext)
    (h : Serves client s {} pages) (hfuel : pages.length ≤ fuel) :
    (DaemonSetContainersGenerate k client fuel ctx queryContext s).map Prod.fst
      = some { rows := some ((pages.flatMap (fun page => page.Items)).flatMap (fun ds =>
                  ds.Spec.Template.Spec.InitContainers.map
                      (fun c => k.ToMapContainer (initContainerItem k ds c))
                    ++ ds.Spec.Template.Spec.Containers.map
                      (fun c => k.ToMapContainer (containerItem k ds c))
                    ++ ds.Spec.Template.Spec.EphemeralContainers.map
                      (fun c => k.ToMapContainer (ephemeralContainerItem k ds c)))),
               err := none } :=
  containers_of_serves k client s pages fuel ctx queryContext h hfuel

/-- Witness of C6: the names and container types of the rows of the two-page fake
cluster, in order. -/
theorem container_rows_order_witness :
    (DaemonSetContainersGenerate sampleK8s (fakeClient twoPages) 2 Context.TODO
        { Constraints := [] } 0).map Prod.fst
      = some { rows := some
                ((([{ Items := [calicoNode], Continue := "tok" },
                    { Items := [kubeProxy], Continue := "" }] : List DaemonSetList).flatMap
                  (fun page => page.Items)).flatMap (fun ds =>
                  ds.Spec.Template.Spec.InitContainers.map
                      (fun c => sampleK8s.ToMapContainer (initContainerItem sampleK8s ds c))
                    ++ ds.Spec.Template.Spec.Containers.map
                      (fun c => sampleK8s.ToMapContainer (containerItem sampleK8s ds c))
                    ++ ds.Spec.Template.Spec.EphemeralContainers.map
                      (fun c => sampleK8s.ToMapContainer
                        (ephemeralContainerItem sampleK8s ds c)))),
               err := none } ∧
    ((DaemonSetContainersGenerate sampleK8s (fakeClient twoPages) 2 Context.TODO
        { Constraints := [] } 0).bind (fun r => r.1.rows)).map
        (fun rows => rows.map (fun row => (row.lookup "name", row.lookup "container_type")))
      = some [(some "upgrade-ipam", some "init"), (some "install-cni", some "init"),
              (some "flexvol-driver", some "init"), (some "calico-node", some "container"),
              (some "kube-proxy", some "container"), (some "debugger", some "ephemeral")] :=
  ⟨container_rows_order sampleK8s (fakeClient twoPages) 0
      [{ Items := [calicoNode], Continue := "tok" }, { Items := [kubeProxy], Continue := "" }]
      2 Context.TODO { Constraints := [] } (by decide) (by decide),
   by decide⟩

/-! ## The parent's name and meta bundle -/

/-- Counterexample to C7. The record built for the init container `upgrade-ipam` of
`calico-node` does not carry the meta extractor's result for its parent: the
extractor gives the name `calico-node`, the record's meta bundle has the name
`upgrade-ipam`; likewise the record built for the volume `lib-modules`. -/
theorem meta_bundle_name_overwritten :
    sampleContainer "upgrade-ipam" "calico/cni:v3.13.2"
      ∈ calicoNode.Spec.Template.Spec.InitContainers ∧
    (initContainerItem sampleK8s calicoNode
        (sampleContainer "upgrade-ipam" "calico/cni:v3.13.2")).CommonNamespacedFields
      ≠ sampleK8s.GetCommonNamespacedFields calicoNode.ObjectMeta ∧
    (initContainerItem sampleK8s calicoNode
        (sampleContainer "upgrade-ipam" "calico/cni:v3.13.2")).CommonNamespacedFields.Name
      = "upgrade-ipam" ∧
    (sampleK8s.GetCommonNamespacedFields calicoNode.ObjectMeta).Name = "calico-node" ∧
    sampleVolume "lib-modules" "/lib/modules" ∈ calicoNode.Spec.Template.Spec.Volumes ∧
    (volumeItem sampleK8s calicoNode
        (sampleVolume "lib-modules" "/lib/modules")).CommonNamespacedFields
      ≠ sampleK8s.GetCommonNamespacedFields calicoNode.ObjectMeta := by
  decide

/-- C7, amended. Every record built by `DaemonSetContainersGenerate` and by
`DaemonSetVolumesGenerate` carries the parent DaemonSet's name in `DaemonSetName`, and
its `CommonNamespacedFields` are the meta extractor's result for the parent with
the field `Name` replaced by the name of the container, or volume, the record is
built from. -/
theorem parent_name_and_meta_bundle (k : K8s) (ds : DaemonSet) :
    (∀ c : Container,
      (initContainerItem k ds c).DaemonSetName = ds.ObjectMeta.Name ∧
      (initContainerItem k ds c).CommonNamespacedFields
        = { k.GetCommonNamespacedFields ds.ObjectMeta with Name := c.Name }) ∧
    (∀ c : Container,
      (containerItem k ds c).DaemonSetName = ds.ObjectMeta.Name ∧
      (containerItem k ds c).CommonNamespacedFields
        = { k.GetCommonNamespacedFields ds.ObjectMeta with Name := c.Name }) ∧
    (∀ c : EphemeralContainer,
      (ephemeralContainerItem k ds c).DaemonSetName = ds.ObjectMeta.Name ∧
      (ephemeralContainerItem k ds c).CommonNamespacedFields
        = { k.GetCommonNamespacedFields ds.ObjectMeta with Name := c.Name }) ∧
    (∀ v : Volume,
      (volumeItem k ds v).DaemonSetName = ds.ObjectMeta.Name ∧
      (volumeItem k ds v).CommonNamespacedFields
        = { k.GetCommonNamespacedFields ds.ObjectMeta with Name := v.Name }) :=
  ⟨fun _ => ⟨rfl, rfl⟩, fun _ => ⟨rfl, rfl⟩, fun _ => ⟨rfl, rfl⟩, fun _ => ⟨rfl, rfl⟩⟩

/-! ## The volume table -/

/-- C8. In every successful run of `DaemonSetVolumesGenerate` the rows are, for the
listed DaemonSets in list order (page after page), one row per element of
`Spec.Template.Spec.Volumes` in the order of that list, the row at position `i` of a
parent being built from the volume at position `i`; so the number of rows is the
sum of the lengths of the `Volumes` lists. -/
theorem volume_rows_count_and_order {σ : Type} (k : K8s) (client : Client σ) (s : σ)
    (pages : List DaemonSetList) (fuel : Nat) (ctx : Context) (queryContext : QueryContext)
    (h : Serves client s {} pages) (hfuel : pages.length ≤ fuel) :
    ∃ rows,
      (DaemonSetVolumesGenerate k client fuel ctx queryContext s).map Prod.fst
        = some { rows := some rows, err := none } ∧
      rows = (pages.flatMap (fun page => page.Items)).flatMap (fun ds =>
        ds.Spec.Template.Spec.Volumes.map (fun v => k.ToMapVolume (volumeItem k ds v))) ∧
      rows.length = ((pages.flatMap (fun page => page.Items)).map
        (fun ds => ds.Spec.Template.Spec.Volumes.length)).sum ∧
      ∀ (ds : DaemonSet) (i : Nat) (v : Volume),
        ds.Spec.Template.Spec.Volumes[i]? = some v →
        (ds.Spec.Template.Spec.Volumes.map
            (fun v => k.ToMapVolume (volumeItem k ds v)))[i]?
          = some (k.ToMapVolume (volumeItem k ds v)) := by
  refine ⟨_, volumes_of_serves k client s pages fuel ctx queryContext h hfuel, rfl, ?_, ?_⟩
  · rw [length_flatMap_eq_sum]
    simp [volumeRows, allItems]
  · intro ds i v hv
    simp [List.getElem?_map, hv]

/-- Witness of C8: the two-page fake cluster yields the two volume rows of
`calico-node`, in the order of its volume list. -/
theorem volume_rows_count_and_order_witness :
    ∃ rows,
      (DaemonSetVolumesGenerate sampleK8s (fakeClient twoPages) 2 Context.TODO
          { Constraints := [] } 0).map Prod.fst
        = some { rows := some rows, err := none } ∧
      rows.map (fun row => row.lookup "name") = [some "lib-modules", some "var-run-calico"] := by
  obtain ⟨rows, hrun, hrows, _, _⟩ :=
    volume_rows_count_and_order sampleK8s (fakeClient twoPages) 0
      [{ Items := [calicoNode], Continue := "tok" }, { Items := [kubeProxy], Continue := "" }]
      2 Context.TODO { Constraints := [] } (by decide) (by decide)
  refine ⟨rows, hrun, ?_⟩
  rw [hrows]
  decide

/-- C9. When the client serves a listing in which no listed DaemonSet has a volume,
a listing without any DaemonSet included, `DaemonSetVolumesGenerate` returns an empty
row sequence that is not nil, and a nil error. Moreover, in every run of one of
the three generators against any client, a nil error comes with a row sequence
that is not nil. -/
theorem empty_listing_rows_not_nil {σ : Type} (k : K8s) (client : Client σ) (s : σ)
    (pages : List DaemonSetList) (fuel : Nat) (ctx : Context) (queryContext : QueryContext)
    (h : Serves client s {} pages) (hfuel : pages.length ≤ fuel)
    (hnone : ∀ ds ∈ allItems pages, ds.Spec.Template.Spec.Volumes = []) :
    (DaemonSetVolumesGenerate k client fuel ctx queryContext s).map Prod.fst
      = some { rows := some [], err := none } ∧
    (∀ (τ : Type) (other : Client τ) (n : Nat) (c : Context) (q : QueryContext) (t t' : τ)
        (r : GenerateResult),
      (DaemonSetsGenerate k other n c q t = some (r, t') ∨
        DaemonSetContainersGenerate k other n c q t = some (r, t') ∨
        DaemonSetVolumesGenerate k other n c q t = some (r, t')) →
      r.err = none → r.rows ≠ none) := by
  constructor
  · rw [volumes_of_serves k client s pages fuel ctx queryContext h hfuel]
    have hempty : (allItems pages).flatMap (volumeRows k) = [] := by
      rw [List.flatMap_eq_nil_iff]
      intro ds hds
      simp [volumeRows, hnone ds hds]
    rw [hempty]
  · intro τ other n c q t t' r hrun herr
    have hor : (r.rows = none ∧ r.err ≠ none) ∨ (r.rows ≠ none ∧ r.err = none) := by
      rcases hrun with hrun | hrun | hrun
      · exact daemonSets_rows_or_error k other n c q t t' r hrun
      · exact containers_rows_or_error k other n c q t t' r hrun
      · exact volumes_rows_or_error k other n c q t t' r hrun
    rcases hor with hor | hor
    · exact absurd herr hor.2
    · exact hor.1

/-- Witness of C9: a fake cluster that lists `kubeProxy`, which has no volume. -/
theorem empty_listing_rows_not_nil_witness :
    Serves (fakeClient noVolumePages) 0 {} [{ Items := [kubeProxy], Continue := "" }] ∧
    (∀ ds ∈ allItems [{ Items := [kubeProxy], Continue := "" }],
      ds.Spec.Template.Spec.Volumes = []) ∧
    (DaemonSetVolumesGenerate sampleK8s (fakeClient noVolumePages) 1 Context.TODO
        { Constraints := [] } 0).map Prod.fst
      = some { rows := some [], err := none } :=
  ⟨by decide, by decide,
   (empty_listing_rows_not_nil sampleK8s (fakeClient noVolumePages) 0
      [{ Items := [kubeProxy], Continue := "" }] 1 Context.TODO { Constraints := [] }
      (by decide) (by decide) (by decide)).1⟩

/-! ## The parent table -/

/-- C10. In every successful run of `DaemonSetsGenerate` there is exactly one row per
listed DaemonSet, in list order: the row at position `i` is the projection
`k8s.ToMap` of the record whose fields are the meta bundle of item `i`, the pod
summary of its template spec, its `Status`, `Spec.Selector`, `Spec.UpdateStrategy`,
`Spec.MinReadySeconds` and `Spec.RevisionHistoryLimit`. -/
theorem daemon_sets_one_row_per_item {σ : Type} (k : K8s) (client : Client σ) (s : σ)
    (pages : List DaemonSetList) (fuel : Nat) (ctx : Context) (queryContext : QueryContext)
    (h : Serves client s {} pages) (hfuel : pages.length ≤ fuel) :
    ∃ rows,
      (DaemonSetsGenerate k client fuel ctx queryContext s).map Prod.fst
        = some { rows := some rows, err := none } ∧
      rows.length = (pages.flatMap (fun page => page.Items)).length ∧
      ∀ (i : Nat) (ds : DaemonSet),
        (pages.flatMap (fun page => page.Items))[i]? = some ds →
        rows[i]? = some (k.ToMapDaemonSet
          { CommonNamespacedFields := k.GetCommonNamespacedFields ds.ObjectMeta
            CommonPodFields := k.GetCommonPodFields ds.Spec.Template.Spec
            DaemonSetStatus := ds.Status
            Selector := ds.Spec.Selector
            UpdateStrategy := ds.Spec.UpdateStrategy
            MinReadySeconds := ds.Spec.MinReadySeconds
            RevisionHistoryLimit := ds.Spec.RevisionHistoryLimit }) := by
  refine ⟨_, daemonSets_of_serves k client s pages fuel ctx queryContext h hfuel, ?_, ?_⟩
  · simp [allItems]
  · intro i ds hds
    have hds' : (allItems pages)[i]? = some ds := hds
    simp [List.getElem?_map, hds', daemonSetItem]

/-- Witness of C10: the two-page fake cluster yields one row per DaemonSet, that of
`calico-node` first. -/
theorem daemon_sets_one_row_per_item_witness :
    ∃ rows,
      (DaemonSetsGenerate sampleK8s (fakeClient twoPages) 2 Context.TODO
          { Constraints := [] } 0).map Prod.fst
        = some { rows := some rows, err := none } ∧
      rows.length = 2 ∧
      rows[0]? = some [("cluster_uid", "blah"), ("name", "calico-node"),
        ("namespace", "kube-system"), ("uid", "e6fed7f0-f79a-464f-a3d2-b63247a1f590"),
        ("dns_policy", "ClusterFirst")] := by
  obtain ⟨rows, hrun, hlen, hrow⟩ :=
    daemon_sets_one_row_per_item sampleK8s (fakeClient twoPages) 0
      [{ Items := [calicoNode], Continue := "tok" }, { Items := [kubeProxy], Continue := "" }]
      2 Context.TODO { Constraints := [] } (by decide) (by decide)
  exact ⟨rows, hrun, hlen, hrow 0 calicoNode rfl⟩

/-! ## The list requests of a run -/

theorem paginate_recording_of_serves {σ : Type} (client : Client σ)
    (rowsOf : DaemonSet → List Row) (pages : List DaemonSetList) :
    ∀ (fuel : Nat) (options : ListOptions) (results : List Row) (s : σ) (log : List Request),
      Serves client s options pages → pages.length ≤ fuel →
      (paginate (recording client) rowsOf fuel options results (s, log)).map
          (fun x => x.2.2)
        = some (log ++ chainedRequests options pages) := by
  induction pages with
  | nil => intro fuel options results s log h; exact absurd h (by simp [Serves])
  | cons page rest ih =>
    intro fuel options results s log h hfuel
    cases fuel with
    | zero => simp at hfuel
    | succ fuel =>
      simp only [Serves] at h
      obtain ⟨hpage, hrest⟩ := h
      simp only [paginate, recording]
      rcases hreq : client.List Context.TODO NamespaceAll options s with ⟨r, s'⟩
      rw [hreq] at hpage hrest
      simp only at hpage hrest
      subst hpage
      by_cases hc : page.Continue = ""
      · simp only [hc, if_true] at hrest ⊢
        subst hrest
        simp [chainedRequests]
      · simp only [hc, if_false] at hrest ⊢
        have := ih fuel _ (results ++ page.Items.flatMap rowsOf) s'
          (log ++ [{ ctx := Context.TODO, Namespace := NamespaceAll, options := options }])
          hrest (by simpa using hfuel)
        simpa [recording, chainedRequests, List.append_assoc] using this

theorem paginate_none_of_serves {σ : Type} (client : Client σ)
    (rowsOf : DaemonSet → List Row) (pages : List DaemonSetList) :
    ∀ (fuel : Nat) (options : ListOptions) (results : List Row) (s : σ),
      Serves client s options pages → fuel < pages.length →
      paginate client rowsOf fuel options results s = none := by
  induction pages with
  | nil => intro fuel options results s h; exact absurd h (by simp [Serves])
  | cons page rest ih =>
    intro fuel options results s h hfuel
    cases fuel with
    | zero => rfl
    | succ fuel =>
      simp only [Serves] at h
      obtain ⟨hpage, hrest⟩ := h
      simp only [paginate]
      rcases hreq : client.List Context.TODO NamespaceAll options s with ⟨r, s'⟩
      rw [hreq] at hpage hrest
      simp only at hpage hrest
      subst hpage
      by_cases hc : page.Continue = ""
      · simp only [hc, if_true] at hrest
        subst hrest
        simp at hfuel
      · simp only [hc, if_false] at hrest ⊢
        exact ih fuel _ _ s' hrest (by simpa using hfuel)

theorem serves_recording {σ : Type} (client : Client σ) (pages : List DaemonSetList) :
    ∀ (options : ListOptions) (s : σ) (log : List Request),
      Serves client s options pages → Serves (recording client) (s, log) options pages := by
  induction pages with
  | nil => intro options s log h; exact absurd h (by simp [Serves])
  | cons page rest ih =>
    intro options s log h
    simp only [Serves] at h ⊢
    obtain ⟨hpage, hrest⟩ := h
    refine ⟨hpage, ?_⟩
    by_cases hc : page.Continue = ""
    · simpa [hc] using hrest
    · simp only [hc, if_false] at hrest ⊢
      exact ih _ _ _ hrest

theorem chainedRequests_length (pages : List DaemonSetList) :
    ∀ options : ListOptions, (chainedRequests options pages).length = pages.length := by
  induction pages with
  | nil => intro options; rfl
  | cons page rest ih => intro options; simp [chainedRequests, ih]

theorem chainedRequests_head (pages : List DaemonSetList) (options : ListOptions)
    (h : pages ≠ []) :
    (chainedRequests options pages)[0]?
      = some { ctx := Context.TODO, Namespace := NamespaceAll, options := options } := by
  cases pages with
  | nil => exact absurd rfl h
  | cons page rest => simp [chainedRequests]

theorem chainedRequests_next (pages : List DaemonSetList) :
    ∀ (options : ListOptions) (i : Nat), i + 1 < pages.length →
      ((chainedRequests options pages)[i + 1]?).map (fun req => req.options.Continue)
        = (pages[i]?).map (fun page => page.Continue) := by
  induction pages with
  | nil => intro options i h; simp at h
  | cons page rest ih =>
    intro options i h
    cases i with
    | zero =>
      cases rest with
      | nil => simp at h
      | cons q rest' => simp [chainedRequests]
    | succ j =>
      have := ih { options with Continue := page.Continue } j (by simpa using h)
      simpa [chainedRequests] using this

theorem paginate_recording_requests {σ : Type} (client : Client σ)
    (rowsOf : DaemonSet → List Row) :
    ∀ (fuel : Nat) (options : ListOptions) (results : List Row) (s : σ)
      (log : List Request) (r : GenerateResult) (st : σ × List Request),
      paginate (recording client) rowsOf fuel options results (s, log) = some (r, st) →
      options.onlyContinue →
      (∀ req ∈ log, req.ctx = Context.TODO ∧ req.Namespace = NamespaceAll ∧
        req.options.onlyContinue) →
      ∀ req ∈ st.2, req.ctx = Context.TODO ∧ req.Namespace = NamespaceAll ∧
        req.options.onlyContinue := by
  intro fuel
  induction fuel with
  | zero => intro options results s log r st h; simp [paginate] at h
  | succ fuel ih =>
    intro options results s log r st h hopt hlog
    have hlog' : ∀ req ∈ log ++
        [({ ctx := Context.TODO, Namespace := NamespaceAll, options := options } : Request)],
        req.ctx = Context.TODO ∧ req.Namespace = NamespaceAll ∧ req.options.onlyContinue := by
      intro req hreq
      rcases List.mem_append.1 hreq with hreq | hreq
      · exact hlog req hreq
      · rw [List.mem_singleton] at hreq
        subst hreq
        exact ⟨rfl, rfl, hopt⟩
    simp only [paginate, recording] at h
    rcases hreq : client.List Context.TODO NamespaceAll options s with ⟨a, t⟩
    rw [hreq] at h
    cases a with
    | error err =>
      simp only [Option.some.injEq, Prod.mk.injEq] at h
      obtain ⟨_, hst⟩ := h
      subst hst
      exact hlog'
    | ok dss =>
      simp only at h
      by_cases hc : dss.Continue = ""
      · simp only [hc, if_true, Option.some.injEq, Prod.mk.injEq] at h
        obtain ⟨_, hst⟩ := h
        subst hst
        exact hlog'
      · simp only [hc, if_false] at h
        exact ih { options with Continue := dss.Continue } _ t _ r st h hopt hlog'

theorem daemonSets_log_of_serves {σ : Type} (k : K8s) (client : Client σ) (s : σ)
    (pages : List DaemonSetList) (fuel : Nat) (ctx : Context) (queryContext : QueryContext)
    (h : Serves client s {} pages) (hfuel : pages.length ≤ fuel) :
    (DaemonSetsGenerate k (recording client) fuel ctx queryContext (s, [])).map
        (fun x => x.2.2) = some (chainedRequests {} pages) := by
  unfold DaemonSetsGenerate makeEmpty
  rw [daemonSets_loop_eq_paginate,
    paginate_recording_of_serves client _ pages fuel {} [] s [] h hfuel]
  rfl

theorem containers_log_of_serves {σ : Type} (k : K8s) (client : Client σ) (s : σ)
    (pages : List DaemonSetList) (fuel : Nat) (ctx : Context) (queryContext : QueryContext)
    (h : Serves client s {} pages) (hfuel : pages.length ≤ fuel) :
    (DaemonSetContainersGenerate k (recording client) fuel ctx queryContext (s, [])).map
        (fun x => x.2.2) = some (chainedRequests {} pages) := by
  unfold DaemonSetContainersGenerate makeEmpty
  rw [containers_loop_eq_paginate,
    paginate_recording_of_serves client _ pages fuel {} [] s [] h hfuel]
  rfl

theorem volumes_log_of_serves {σ : Type} (k : K8s) (client : Client σ) (s : σ)
    (pages : List DaemonSetList) (fuel : Nat) (ctx : Context) (queryContext : QueryContext)
    (h : Serves client s {} pages) (hfuel : pages.length ≤ fuel) :
    (DaemonSetVolumesGenerate k (recording client) fuel ctx queryContext (s, [])).map
        (fun x => x.2.2) = some (chainedRequests {} pages) := by
  unfold DaemonSetVolumesGenerate makeEmpty
  rw [volumes_loop_eq_paginate,
    paginate_recording_of_serves client _ pages fuel {} [] s [] h hfuel]
  rfl

theorem serves_ne_nil {σ : Type} (client : Client σ) (s : σ) (options : ListOptions)
    (pages : List DaemonSetList) (h : Serves client s options pages) : pages ≠ [] := by
  intro hnil
  subst hnil
  exact h

/-- C11. When the client answers every request successfully and its `K`-th answer is
the first with an empty continue-token (it serves `K` pages), each of the three
generators, given fuel for `K` iterations, returns after exactly `K` list requests:
the log of the observed client holds `K` requests, the first with an empty
continue-token, request `i + 1` with the continue-token of page `i`, and nothing
after them. With fuel for fewer than `K` iterations the loop has not finished. -/
theorem one_request_per_page {σ : Type} (k : K8s) (client : Client σ) (s : σ)
    (pages : List DaemonSetList) (fuel : Nat) (ctx : Context) (queryContext : QueryContext)
    (h : Serves client s {} pages) (hfuel : pages.length ≤ fuel) :
    ∃ log : List Request,
      (DaemonSetsGenerate k (recording client) fuel ctx queryContext (s, [])).map
          (fun x => x.2.2) = some log ∧
      (DaemonSetContainersGenerate k (recording client) fuel ctx queryContext (s, [])).map
          (fun x => x.2.2) = some log ∧
      (DaemonSetVolumesGenerate k (recording client) fuel ctx queryContext (s, [])).map
          (fun x => x.2.2) = some log ∧
      log.length = pages.length ∧
      (log[0]?).map (fun req => req.options.Continue) = some "" ∧
      (∀ i, i + 1 < pages.length →
        (log[i + 1]?).map (fun req => req.options.Continue)
          = (pages[i]?).map (fun page => page.Continue)) ∧
      (∀ n, n < pages.length →
        DaemonSetsGenerate k client n ctx queryContext s = none ∧
        DaemonSetContainersGenerate k client n ctx queryContext s = none ∧
        DaemonSetVolumesGenerate k client n ctx queryContext s = none) := by
  refine ⟨chainedRequests {} pages,
    daemonSets_log_of_serves k client s pages fuel ctx queryContext h hfuel,
    containers_log_of_serves k client s pages fuel ctx queryContext h hfuel,
    volumes_log_of_serves k client s pages fuel ctx queryContext h hfuel,
    chainedRequests_length pages {}, ?_, chainedRequests_next pages {}, ?_⟩
  · rw [chainedRequests_head pages {} (serves_ne_nil client s {} pages h)]
    rfl
  · intro n hn
    refine ⟨?_, ?_, ?_⟩
    · unfold DaemonSetsGenerate makeEmpty
      rw [daemonSets_loop_eq_paginate]
      exact paginate_none_of_serves client _ pages n {} [] s h hn
    · unfold DaemonSetContainersGenerate makeEmpty
      rw [containers_loop_eq_paginate]
      exact paginate_none_of_serves client _ pages n {} [] s h hn
    · unfold DaemonSetVolumesGenerate makeEmpty
      rw [volumes_loop_eq_paginate]
      exact paginate_none_of_serves client _ pages n {} [] s h hn

/-- Witness of C11: against the two-page fake cluster the log holds two requests, with
the continue-tokens `""` and `tok`. -/
theorem one_request_per_page_witness :
    Serves (fakeClient twoPages) 0 {}
      [{ Items := [calicoNode], Continue := "tok" }, { Items := [kubeProxy], Continue := "" }] ∧
    ∃ log : List Request,
      (DaemonSetsGenerate sampleK8s (recording (fakeClient twoPages)) 2 Context.TODO
          { Constraints := [] } (0, [])).map (fun x => x.2.2) = some log ∧
      log.length = 2 ∧
      (log[0]?).map (fun req => req.options.Continue) = some "" ∧
      (log[1]?).map (fun req => req.options.Continue) = some "tok" := by
  refine ⟨by decide, ?_⟩
  obtain ⟨log, hrun, _, _, hlen, hfirst, hnext, _⟩ :=
    one_request_per_page sampleK8s (fakeClient twoPages) 0
      [{ Items := [calicoNode], Continue := "tok" }, { Items := [kubeProxy], Continue := "" }]
      2 Context.TODO { Constraints := [] } (by decide) (by decide)
  exact ⟨log, hrun, hlen, hfirst, hnext 0 (by decide)⟩

/-- C12. In every run of one of the three generators that returns, with rows or with
an error, against any client, every list request received by the client, the
first and every later one, is for `metav1.NamespaceAll` and has list options in which
every field other than `Continue` has its zero value: no label selector, field
selector, resource version, watch, timeout or limit. -/
theorem requests_all_namespaces_only_continue {σ : Type} (k : K8s) (client : Client σ)
    (s : σ) (fuel : Nat) (ctx : Context) (queryContext : QueryContext) (log : List Request)
    (hrun :
      (DaemonSetsGenerate k (recording client) fuel ctx queryContext (s, [])).map
          (fun x => x.2.2) = some log ∨
      (DaemonSetContainersGenerate k (recording client) fuel ctx queryContext (s, [])).map
          (fun x => x.2.2) = some log ∨
      (DaemonSetVolumesGenerate k (recording client) fuel ctx queryContext (s, [])).map
          (fun x => x.2.2) = some log) :
    ∀ req ∈ log,
      req.Namespace = NamespaceAll ∧
      req.options.LabelSelector = "" ∧ req.options.FieldSelector = "" ∧
      req.options.Watch = false ∧ req.options.AllowWatchBookmarks = false ∧
      req.options.ResourceVersion = "" ∧ req.options.ResourceVersionMatch = "" ∧
      req.options.TimeoutSeconds = none ∧ req.options.Limit = 0 := by
  have hzero : ({} : ListOptions).onlyContinue := ⟨rfl, rfl, rfl, rfl, rfl, rfl, rfl, rfl⟩
  have hpag : ∀ rowsOf : DaemonSet → List Row,
      (paginate (recording client) rowsOf fuel {} [] (s, [])).map (fun x => x.2.2)
        = some log →
      ∀ req ∈ log, req.Namespace = NamespaceAll ∧ req.options.onlyContinue := by
    intro rowsOf hp req hreq
    rcases hres : paginate (recording client) rowsOf fuel {} [] (s, []) with _ | ⟨r, st⟩
    · rw [hres] at hp
      simp at hp
    · rw [hres] at hp
      simp only [Option.map_some', Option.some.injEq] at hp
      subst hp
      exact (paginate_recording_requests client rowsOf fuel {} [] s [] r st hres hzero
        (by simp) req hreq).2
  intro req hreq
  rcases hrun with hrun | hrun | hrun
  · unfold DaemonSetsGenerate makeEmpty at hrun
    rw [daemonSets_loop_eq_paginate] at hrun
    exact hpag _ hrun req hreq
  · unfold DaemonSetContainersGenerate makeEmpty at hrun
    rw [containers_loop_eq_paginate] at hrun
    exact hpag _ hrun req hreq
  · unfold DaemonSetVolumesGenerate makeEmpty at hrun
    rw [volumes_loop_eq_paginate] at hrun
    exact hpag _ hrun req hreq

/-- Witness of C12: the two requests `DaemonSetVolumesGenerate` makes against the
two-page fake cluster. -/
theorem requests_all_namespaces_only_continue_witness :
    (DaemonSetVolumesGenerate sampleK8s (recording (fakeClient twoPages)) 2 Context.TODO
        { Constraints := [] } (0, [])).map (fun x => x.2.2)
      = some [{ ctx := Context.TODO, Namespace := "", options := {} },
              { ctx := Context.TODO, Namespace := "", options := { Continue := "tok" } }] ∧
    ∀ req ∈ ([{ ctx := Context.TODO, Namespace := "", options := {} },
              { ctx := Context.TODO, Namespace := "", options := { Continue := "tok" } }] :
              List Request),
      req.Namespace = NamespaceAll ∧
      req.options.LabelSelector = "" ∧ req.options.FieldSelector = "" ∧
      req.options.Watch = false ∧ req.options.AllowWatchBookmarks = false ∧
      req.options.ResourceVersion = "" ∧ req.options.ResourceVersionMatch = "" ∧
      req.options.TimeoutSeconds = none ∧ req.options.Limit = 0 :=
  ⟨by decide,
   requests_all_namespaces_only_continue sampleK8s (fakeClient twoPages) 0 2 Context.TODO
    { Constraints := [] } _ (Or.inr (Or.inr (by decide)))⟩

/-! ## The assignment `item.Name = c.Name` -/

/-- C15. In every record built by `DaemonSetContainersGenerate` (for an init container, a
container or an ephemeral container) and by `DaemonSetVolumesGenerate`, the field `Name`
holds the name of the container, or volume, the record is built from, `DaemonSetName`
holds the parent's name, and every other field is as the record literal set it:
cluster uid, uid, namespace, creation timestamp, labels and annotations as the
meta extractor produced them from the parent, the container or volume bundle as
its extractor produced it, and the container type. -/
theorem name_assignment_changes_name_only (k : K8s) (ds : DaemonSet) :
    (∀ c : Container,
      (initContainerItem k ds c).CommonNamespacedFields.Name = c.Name ∧
      (initContainerItem k ds c).DaemonSetName = ds.ObjectMeta.Name ∧
      (initContainerItem k ds c).CommonNamespacedFields.ClusterUID
        = (k.GetCommonNamespacedFields ds.ObjectMeta).ClusterUID ∧
      (initContainerItem k ds c).CommonNamespacedFields.UID
        = (k.GetCommonNamespacedFields ds.ObjectMeta).UID ∧
      (initContainerItem k ds c).CommonNamespacedFields.Namespace
        = (k.GetCommonNamespacedFields ds.ObjectMeta).Namespace ∧
      (initContainerItem k ds c).CommonNamespacedFields.CreationTimestamp
        = (k.GetCommonNamespacedFields ds.ObjectMeta).CreationTimestamp ∧
      (initContainerItem k ds c).CommonNamespacedFields.Labels
        = (k.GetCommonNamespacedFields ds.ObjectMeta).Labels ∧
      (initContainerItem k ds c).CommonNamespacedFields.Annotations
        = (k.GetCommonNamespacedFields ds.ObjectMeta).Annotations ∧
      (initContainerItem k ds c).CommonContainerFields = k.GetCommonContainerFields c ∧
      (initContainerItem k ds c).ContainerType = "init") ∧
    (∀ c : Container,
      (containerItem k ds c).CommonNamespacedFields.Name = c.Name ∧
      (containerItem k ds c).DaemonSetName = ds.ObjectMeta.Name ∧
      (containerItem k ds c).CommonNamespacedFields.ClusterUID
        = (k.GetCommonNamespacedFields ds.ObjectMeta).ClusterUID ∧
      (containerItem k ds c).CommonNamespacedFields.UID
        = (k.GetCommonNamespacedFields ds.ObjectMeta).UID ∧
      (containerItem k ds c).CommonNamespacedFields.Namespace
        = (k.GetCommonNamespacedFields ds.ObjectMeta).Namespace ∧
      (containerItem k ds c).CommonNamespacedFields.CreationTimestamp
        = (k.GetCommonNamespacedFields ds.ObjectMeta).CreationTimestamp ∧
      (containerItem k ds c).CommonNamespacedFields.Labels
        = (k.GetCommonNamespacedFields ds.ObjectMeta).Labels ∧
      (containerItem k ds c).CommonNamespacedFields.Annotations
        = (k.GetCommonNamespacedFields ds.ObjectMeta).Annotations ∧
      (containerItem k ds c).CommonContainerFields = k.GetCommonContainerFields c ∧
      (containerItem k ds c).ContainerType = "container") ∧
    (∀ c : EphemeralContainer,
      (ephemeralContainerItem k ds c).CommonNamespacedFields.Name = c.Name ∧
      (ephemeralContainerItem k ds c).DaemonSetName = ds.ObjectMeta.Name ∧
      (ephemeralContainerItem k ds c).CommonNamespacedFields.ClusterUID
        = (k.GetCommonNamespacedFields ds.ObjectMeta).ClusterUID ∧
      (ephemeralContainerItem k ds c).CommonNamespacedFields.UID
        = (k.GetCommonNamespacedFields ds.ObjectMeta).UID ∧
      (ephemeralContainerItem k ds c).CommonNamespacedFields.Namespace
        = (k.GetCommonNamespacedFields ds.ObjectMeta).Namespace ∧
      (ephemeralContainerItem k ds c).CommonNamespacedFields.CreationTimestamp
        = (k.GetCommonNamespacedFields ds.ObjectMeta).CreationTimestamp ∧
      (ephemeralContainerItem k ds c).CommonNamespacedFields.Labels
        = (k.GetCommonNamespacedFields ds.ObjectMeta).Labels ∧
      (ephemeralContainerItem k ds c).CommonNamespacedFields.Annotations
        = (k.GetCommonNamespacedFields ds.ObjectMeta).Annotations ∧
      (ephemeralContainerItem k ds c).CommonContainerFields
        = k.GetCommonEphemeralContainerFields c ∧
      (ephemeralContainerItem k ds c).ContainerType = "ephemeral") ∧
    (∀ v : Volume,
      (volumeItem k ds v).CommonNamespacedFields.Name = v.Name ∧
      (volumeItem k ds v).DaemonSetName = ds.ObjectMeta.Name ∧
      (volumeItem k ds v).CommonNamespacedFields.ClusterUID
        = (k.GetCommonNamespacedFields ds.ObjectMeta).ClusterUID ∧
      (volumeItem k ds v).CommonNamespacedFields.UID
        = (k.GetCommonNamespacedFields ds.ObjectMeta).UID ∧
      (volumeItem k ds v).CommonNamespacedFields.Namespace
        = (k.GetCommonNamespacedFields ds.ObjectMeta).Namespace ∧
      (volumeItem k ds v).CommonNamespacedFields.CreationTimestamp
        = (k.GetCommonNamespacedFields ds.ObjectMeta).CreationTimestamp ∧
      (volumeItem k ds v).CommonNamespacedFields.Labels
        = (k.GetCommonNamespacedFields ds.ObjectMeta).Labels ∧
      (volumeItem k ds v).CommonNamespacedFields.Annotations
        = (k.GetCommonNamespacedFields ds.ObjectMeta).Annotations ∧
      (volumeItem k ds v).CommonVolumeFields = k.GetCommonVolumeFields v) :=
  ⟨fun _ => ⟨rfl, rfl, rfl, rfl, rfl, rfl, rfl, rfl, rfl, rfl⟩,
   fun _ => ⟨rfl, rfl, rfl, rfl, rfl, rfl, rfl, rfl, rfl, rfl⟩,
   fun _ => ⟨rfl, rfl, rfl, rfl, rfl, rfl, rfl, rfl, rfl, rfl⟩,
   fun _ => ⟨rfl, rfl, rfl, rfl, rfl, rfl, rfl, rfl, rfl⟩⟩

/-! ## The modelled row projection and the expected rows of the tests -/

theorem lookup_columns_cons (key name : String) (value : Option String)
    (cs : List (String × Option String)) :
    (columns ((name, value) :: cs)).lookup key
      = if key = name then value.orElse (fun _ => (columns cs).lookup key)
        else (columns cs).lookup key := by
  cases value with
  | none => simp [columns]
  | some v =>
    by_cases h : key = name
    · subst h
      simp [columns, List.lookup]
    · have hb : (key == name) = false := by simpa using h
      simp [columns, List.lookup, h, hb]

theorem lookup_columns_nil (key : String) : (columns []).lookup key = none := rfl

theorem toString_int_zero : toString (0 : Int) = "0" := by decide

theorem jsonResources_empty : jsonResources { Limits := [], Requests := [] } = "\x7b\x7d" := by
  decide

/-- The modelled projection reproduces the rows `TestDaemonSetVolumesGenerate` expects for
the volumes `lib-modules` and `xtables-lock`, column for column. -/
theorem model_volume_rows_as_expected :
    ToMapVolume (volumeItem (modelK8s "blah") testDaemonSet libModules)
      = expectedLibModulesRow ∧
    ToMapVolume (volumeItem (modelK8s "blah") testDaemonSet xtablesLock)
      = expectedXtablesLockRow := by
  decide

/-- Every column of the modelled row of the init container `upgrade-ipam` has the value
`TestDaemonSetContainersGenerate` expects for it. -/
theorem model_container_row_as_expected :
    ∀ key ∈ (ToMapContainer
        (initContainerItem (modelK8s "blah") testDaemonSet upgradeIpam)).map Prod.fst,
      (ToMapContainer (initContainerItem (modelK8s "blah") testDaemonSet upgradeIpam)).lookup key
        = expectedUpgradeIpamRow.lookup key := by
  decide

/-- Every column of the modelled row of the DaemonSet `calico-node` has the value
`TestDaemonSetsGenerate` expects for it. -/
theorem model_daemon_set_row_as_expected :
    ∀ key ∈ (ToMapDaemonSet (daemonSetItem (modelK8s "blah") testDaemonSet)).map Prod.fst,
      (ToMapDaemonSet (daemonSetItem (modelK8s "blah") testDaemonSet)).lookup key
        = expectedDaemonSetRow.lookup key := by
  decide

theorem mem_columns (key value : String) (cs : List (String × Option String)) :
    (key, value) ∈ columns cs ↔ (key, some value) ∈ cs := by
  simp only [columns, List.mem_filterMap]
  constructor
  · rintro ⟨⟨name, v⟩, hmem, hv⟩
    cases v with
    | none => simp at hv
    | some w =>
      simp only [Option.map_some', Option.some.injEq, Prod.mk.injEq] at hv
      obtain ⟨h1, h2⟩ := hv
      subst h1 h2
      exact hmem
  · intro h
    exact ⟨(key, some value), h, rfl⟩

theorem mem_of_lookup_eq_some (key value : String) (row : Row)
    (h : row.lookup key = some value) : (key, value) ∈ row := by
  induction row with
  | nil => simp [List.lookup] at h
  | cons p rest ih =>
    obtain ⟨k, w⟩ := p
    by_cases hk : key = k
    · subst hk
      simp only [List.lookup_cons_self, Option.some.injEq] at h
      subst h
      exact List.mem_cons_self _ _
    · have hb : (key == k) = false := by simpa using hk
      simp only [List.lookup, hb] at h
      exact List.mem_cons_of_mem _ (ih h)

theorem host_path_row_keys (clusterUID : String) (ds : DaemonSet) (v : Volume)
    (hp : HostPathVolumeSource) (hv : v.VolumeSource = { HostPath := some hp })
    (key value : String)
    (hmem : (key, value) ∈ ToMapVolume (volumeItem (modelK8s clusterUID) ds v)) :
    key ∈ ["annotations", "cluster_uid", "creation_timestamp", "labels", "name", "namespace",
      "uid", "daemon_set_name", "volume_type", "host_path_path", "host_path_type",
      "aws_elastic_block_store_partition", "gce_persistent_disk_partition", "iscsi_lun",
      "iscsi_discovery_chap_auth", "iscsi_session_chap_auth", "scale_iossl_enabled"] := by
  simp only [modelK8s, ToMapVolume, mem_columns, volumeItem, GetCommonVolumeFields, hv,
    variantLeaf, Option.map_none', Option.getD_none, projectString, if_true,
    List.mem_cons, Prod.mk.injEq, List.mem_singleton, List.not_mem_nil, or_false] at hmem
  simp only [List.mem_cons, List.mem_singleton, List.not_mem_nil, or_false]
  rcases hmem with h | h | h | h | h | h | h | h | h | h | h | h | h | h | h | h | h | h | h | h | h | h | h | h <;>
    first
    | (simp [h.1]; done)
    | exact absurd h.2 (fun hh => Option.noConfusion hh)

/-! ## The columns of a host-path volume -/

/-- Counterexample to C13. The volume `lib-modules` of the test fixture is a host-path
volume, and the row `DaemonSetVolumesGenerate` returns for it, which is the row the
test expects, holds columns of other variants: `iscsi_lun`, `iscsi_session_chap_auth`,
`iscsi_discovery_chap_auth`, `aws_elastic_block_store_partition`,
`gce_persistent_disk_partition` and `scale_iossl_enabled`, each with the value `0`. And the
row of a host-path volume whose path and type are set to the empty string holds
neither `host_path_path` nor `host_path_type`: an empty string leaf is omitted. -/
theorem host_path_row_has_other_variant_columns :
    libModules.VolumeSource = { HostPath := some { Path := "/lib/modules", Type_ := none } } ∧
    (DaemonSetVolumesGenerate (modelK8s "blah") (fakeClient testPages) 1 Context.TODO
        { Constraints := [] } 0).map Prod.fst
      = some { rows := some [expectedLibModulesRow, expectedXtablesLockRow], err := none } ∧
    expectedLibModulesRow.lookup "volume_type" = some "host_path" ∧
    expectedLibModulesRow.lookup "iscsi_lun" = some "0" ∧
    expectedLibModulesRow.lookup "iscsi_session_chap_auth" = some "0" ∧
    expectedLibModulesRow.lookup "iscsi_discovery_chap_auth" = some "0" ∧
    expectedLibModulesRow.lookup "aws_elastic_block_store_partition" = some "0" ∧
    expectedLibModulesRow.lookup "gce_persistent_disk_partition" = some "0" ∧
    expectedLibModulesRow.lookup "scale_iossl_enabled" = some "0" ∧
    emptyPathVolume.VolumeSource = { HostPath := some { Path := "", Type_ := some "" } } ∧
    ((modelK8s "blah").ToMapVolume
        (volumeItem (modelK8s "blah") testDaemonSet emptyPathVolume)).lookup "volume_type"
      = some "host_path" ∧
    ((modelK8s "blah").ToMapVolume
        (volumeItem (modelK8s "blah") testDaemonSet emptyPathVolume)).lookup "host_path_path"
      = none ∧
    ((modelK8s "blah").ToMapVolume
        (volumeItem (modelK8s "blah") testDaemonSet emptyPathVolume)).lookup "host_path_type"
      = none := by
  decide

/-- C13, amended. For every volume whose source is the host-path variant, the row
built for it by `DaemonSetVolumesGenerate` has `volume_type` `host_path`; it carries
`host_path_path` exactly when the path is not the empty string, and `host_path_type`
exactly when the type is set and not the empty string; it carries the integer and
boolean columns of other variants `aws_elastic_block_store_partition`,
`gce_persistent_disk_partition`, `iscsi_lun`, `iscsi_discovery_chap_auth`,
`iscsi_session_chap_auth` and `scale_iossl_enabled` with the value `0`; and it holds no
other column of another variant: every column of the row is one of these, a meta
column or `daemon_set_name`, so a column of any other name is absent. -/
theorem host_path_row_columns (clusterUID : String) (ds : DaemonSet) (v : Volume)
    (hp : HostPathVolumeSource)
    (hv : v.VolumeSource = { HostPath := some hp }) :
    ((modelK8s clusterUID).ToMapVolume (volumeItem (modelK8s clusterUID) ds v)).lookup
        "volume_type" = some "host_path" ∧
    (hp.Path ≠ "" →
      ((modelK8s clusterUID).ToMapVolume (volumeItem (modelK8s clusterUID) ds v)).lookup
        "host_path_path" = some hp.Path) ∧
    (hp.Path = "" →
      ((modelK8s clusterUID).ToMapVolume (volumeItem (modelK8s clusterUID) ds v)).lookup
        "host_path_path" = none) ∧
    (∀ t, hp.Type_ = some t → t ≠ "" →
      ((modelK8s clusterUID).ToMapVolume (volumeItem (modelK8s clusterUID) ds v)).lookup
        "host_path_type" = some t) ∧
    (hp.Type_ = none ∨ hp.Type_ = some "" →
      ((modelK8s clusterUID).ToMapVolume (volumeItem (modelK8s clusterUID) ds v)).lookup
        "host_path_type" = none) ∧
    (∀ column ∈ ["aws_elastic_block_store_partition", "gce_persistent_disk_partition",
        "iscsi_lun", "iscsi_discovery_chap_auth", "iscsi_session_chap_auth",
        "scale_iossl_enabled"],
      ((modelK8s clusterUID).ToMapVolume (volumeItem (modelK8s clusterUID) ds v)).lookup
        column = some "0") ∧
    (∀ key value,
      (key, value) ∈ (modelK8s clusterUID).ToMapVolume (volumeItem (modelK8s clusterUID) ds v) →
      key ∈ ["annotations", "cluster_uid", "creation_timestamp", "labels", "name", "namespace",
        "uid", "daemon_set_name", "volume_type", "host_path_path", "host_path_type",
        "aws_elastic_block_store_partition", "gce_persistent_disk_partition", "iscsi_lun",
        "iscsi_discovery_chap_auth", "iscsi_session_chap_auth", "scale_iossl_enabled"]) ∧
    (∀ column,
      column ∉ ["annotations", "cluster_uid", "creation_timestamp", "labels", "name",
        "namespace", "uid", "daemon_set_name", "volume_type", "host_path_path",
        "host_path_type", "aws_elastic_block_store_partition",
        "gce_persistent_disk_partition", "iscsi_lun", "iscsi_discovery_chap_auth",
        "iscsi_session_chap_auth", "scale_iossl_enabled"] →
      ((modelK8s clusterUID).ToMapVolume (volumeItem (modelK8s clusterUID) ds v)).lookup
        column = none) ∧
    (∀ column ∈ ["aws_elastic_block_store_volume_id", "empty_dir_medium",
        "gce_persistent_disk_pd_name", "iscsi_iqn", "iscsi_target_portal",
        "scale_io_gateway", "scale_io_system"],
      ((modelK8s clusterUID).ToMapVolume (volumeItem (modelK8s clusterUID) ds v)).lookup
        column = none) := by
  refine ⟨?_, ?_, ?_, ?_, ?_, ?_, ?_, ?_, ?_⟩
  · simp [ToMapVolume, volumeItem, modelK8s, GetCommonVolumeFields, hv, lookup_columns_cons,
      lookup_columns_nil, projectString]
  · intro hpath
    simp [ToMapVolume, volumeItem, modelK8s, GetCommonVolumeFields, hv, lookup_columns_cons,
      lookup_columns_nil, variantLeaf, projectString, hpath]
  · intro hpath
    simp [ToMapVolume, volumeItem, modelK8s, GetCommonVolumeFields, hv, lookup_columns_cons,
      lookup_columns_nil, variantLeaf, projectString, projectOptionalString, hpath]
  · intro t ht hne
    simp [ToMapVolume, volumeItem, modelK8s, GetCommonVolumeFields, hv, lookup_columns_cons,
      lookup_columns_nil, variantLeaf, projectOptionalString, projectString, ht, hne]
  · intro ht
    rcases ht with ht | ht <;>
    simp [ToMapVolume, volumeItem, modelK8s, GetCommonVolumeFields, hv, lookup_columns_cons,
      lookup_columns_nil, variantLeaf, projectOptionalString, projectString, ht]
  · intro column hcolumn
    simp only [List.mem_cons, List.mem_singleton, List.not_mem_nil, or_false] at hcolumn
    rcases hcolumn with h | h | h | h | h | h <;> subst h <;>
    simp [ToMapVolume, volumeItem, modelK8s, GetCommonVolumeFields, hv, lookup_columns_cons,
      lookup_columns_nil, variantLeaf, projectInt, projectBool, toString_int_zero]
  · intro key value hmem
    exact host_path_row_keys clusterUID ds v hp hv key value hmem
  · intro column hcolumn
    cases hlookup : ((modelK8s clusterUID).ToMapVolume
        (volumeItem (modelK8s clusterUID) ds v)).lookup column with
    | none => rfl
    | some value =>
      exact absurd (host_path_row_keys clusterUID ds v hp hv column value
        (mem_of_lookup_eq_some column value _ hlookup)) hcolumn
  · intro column hcolumn
    simp only [List.mem_cons, List.mem_singleton, List.not_mem_nil, or_false] at hcolumn
    rcases hcolumn with h | h | h | h | h | h | h <;> subst h <;>
    simp [ToMapVolume, volumeItem, modelK8s, GetCommonVolumeFields, hv, lookup_columns_cons,
      lookup_columns_nil, variantLeaf, projectString]

/-- Witness of C13, amended: the host-path volume `xtables-lock` of type `FileOrCreate`. -/
theorem host_path_row_columns_witness :
    xtablesLock.VolumeSource
      = { HostPath := some { Path := "/run/xtables.lock", Type_ := some "FileOrCreate" } } ∧
    ((modelK8s "blah").ToMapVolume (volumeItem (modelK8s "blah") testDaemonSet xtablesLock)).lookup
        "host_path_path" = some "/run/xtables.lock" ∧
    ((modelK8s "blah").ToMapVolume (volumeItem (modelK8s "blah") testDaemonSet xtablesLock)).lookup
        "host_path_type" = some "FileOrCreate" ∧
    ((modelK8s "blah").ToMapVolume (volumeItem (modelK8s "blah") testDaemonSet xtablesLock)).lookup
        "nfs_server" = none :=
  ⟨rfl,
   (host_path_row_columns "blah" testDaemonSet xtablesLock
      { Path := "/run/xtables.lock", Type_ := some "FileOrCreate" } rfl).2.1 (by decide),
   (host_path_row_columns "blah" testDaemonSet xtablesLock
      { Path := "/run/xtables.lock", Type_ := some "FileOrCreate" } rfl).2.2.2.1
      "FileOrCreate" rfl (by decide),
   (host_path_row_columns "blah" testDaemonSet xtablesLock
      { Path := "/run/xtables.lock", Type_ := some "FileOrCreate" } rfl).2.2.2.2.2.2.2.1
      "nfs_server" (by decide)⟩

/-! ## The column of an empty nested composite -/

/-- Counterexample to C14. The init container `upgrade-ipam` of the test fixture has
neither limits nor requests, its resources serialise to the empty JSON object,
and the row `DaemonSetContainersGenerate` returns for it maps the column `resources` to
that string, as does the row the test expects. -/
theorem empty_resources_column_emitted :
    upgradeIpam.Resources = { Limits := [], Requests := [] } ∧
    jsonResources upgradeIpam.Resources = "\x7b\x7d" ∧
    ((DaemonSetContainersGenerate (modelK8s "blah") (fakeClient testPages) 1 Context.TODO
        { Constraints := [] } 0).bind (fun x => x.1.rows)).map
        (fun rows => rows.map (fun row => (row.lookup "name", row.lookup "resources")))
      = some [(some "upgrade-ipam", some "\x7b\x7d")] ∧
    expectedUpgradeIpamRow.lookup "name" = some "upgrade-ipam" ∧
    expectedUpgradeIpamRow.lookup "resources" = some "\x7b\x7d" := by
  decide

/-- C14, amended. For every container, init container or ephemeral container whose
resources have neither limits nor requests, and so serialise to the empty JSON
object, the row built for it by `DaemonSetContainersGenerate` carries the column
`resources` with that string as its value: the column is not omitted. -/
theorem empty_resources_column_value (clusterUID : String) (ds : DaemonSet)
    (c : Container) (e : EphemeralContainer)
    (hc : c.Resources = { Limits := [], Requests := [] })
    (he : e.Resources = { Limits := [], Requests := [] }) :
    ((modelK8s clusterUID).ToMapContainer
        (initContainerItem (modelK8s clusterUID) ds c)).lookup "resources"
      = some "\x7b\x7d" ∧
    ((modelK8s clusterUID).ToMapContainer
        (containerItem (modelK8s clusterUID) ds c)).lookup "resources"
      = some "\x7b\x7d" ∧
    ((modelK8s clusterUID).ToMapContainer
        (ephemeralContainerItem (modelK8s clusterUID) ds e)).lookup "resources"
      = some "\x7b\x7d" := by
  refine ⟨?_, ?_, ?_⟩
  · simp [ToMapContainer, initContainerItem, modelK8s, GetCommonContainerFields, hc,
      lookup_columns_cons, lookup_columns_nil, projectComposite, jsonResources_empty]
  · simp [ToMapContainer, containerItem, modelK8s, GetCommonContainerFields, hc,
      lookup_columns_cons, lookup_columns_nil, projectComposite, jsonResources_empty]
  · simp [ToMapContainer, ephemeralContainerItem, modelK8s, GetCommonEphemeralContainerFields,
      he, lookup_columns_cons, lookup_columns_nil, projectComposite, jsonResources_empty]

/-- Witness of C14, amended: the init container `upgrade-ipam` and an ephemeral
container without resources. -/
theorem empty_resources_column_value_witness :
    upgradeIpam.Resources = { Limits := [], Requests := [] } ∧
    ((modelK8s "blah").ToMapContainer
        (initContainerItem (modelK8s "blah") testDaemonSet upgradeIpam)).lookup "resources"
      = some "\x7b\x7d" :=
  ⟨rfl,
   (empty_resources_column_value "blah" testDaemonSet upgradeIpam
      { Name := "debugger", Image := "busybox", Command := [], Args := []
        Resources := { Limits := [], Requests := [] }, ImagePullPolicy := "IfNotPresent"
        Stdin := true, StdinOnce := false, TTY := true, TargetContainerName := "calico-node" }
      rfl rfl).1⟩

end Kubequery
